import Mathlib

/-!
Verification development for the serpapi-mcp-server repository.

The repository implements eight near-identical MCP adapter servers around the
SerpAPI search aggregator plus a YouTube-transcript server.  This file gives a
shallow embedding, in Lean, of the pieces of that Python code that the
specification makes claims about:

* the JSON value model and the per-file `clean_json_dict` pruning functions;
* the in-memory caches, their TTL checks, and the cache-key constructions;
* the readable-mode markdown renderers (`format_search_results`,
  `format_google_finance_results`, `format_google_scholar_results`);
* the adapter orchestration of `SerpApiServer.search`,
  `SerpApiGoogleFinanceServer.google_finance_search` and
  `SerpApiGoogleScholarServer.google_scholar_search`, with the upstream HTTP
  call modelled as an oracle argument;
* `YouTubeTranscriptServer.extract_video_id` / `get_transcript`, with the
  relevant slice of Python's `urllib.parse` modelled explicitly;
* the `call_tool` dispatcher of the Google Search server.

Modelling conventions, used throughout and noted again at the definitions they
affect:

* JSON numbers are modelled as `Int` (the claims under study never depend on
  float-specific behaviour; pruning, caching and dispatch treat numbers as
  opaque scalars).
* Python timestamps (`asyncio.get_event_loop().time()`) are modelled as `Int`
  seconds.
* A Python exception that the adapter raises (`McpError`, `AttributeError`, or
  an uncaught library exception) is modelled as an explicit `fault` result,
  distinct from an ordinary returned payload.
* Where the Python code interpolates an exception message produced by a
  library (e.g. a pydantic `ValidationError`), the model carries the message
  produced by the modelled parser; the exact text of such messages is not load
  bearing for any theorem below.
-/

/-- A decoded JSON value, as produced by `response.json()` / `json.loads` in
the Python sources.  Python dicts preserve insertion order, hence objects are
ordered association lists.  JSON numbers are modelled as `Int` (see the module
comment). -/
inductive Json where
  | null
  | bool (b : Bool)
  | num (n : Int)
  | str (s : String)
  | arr (elems : List Json)
  | obj (members : List (String × Json))
deriving Repr, Inhabited

namespace Json

/-- Python `d[k]` / `k in d` lookup on a JSON object member list (first match,
as in a dict where keys are unique). -/
def lookupKey : List (String × Json) → String → Option Json
  | [], _ => none
  | (k, v) :: rest, key => if k = key then some v else lookupKey rest key

/-- Python truthiness of a decoded JSON value: `None`, `False`, `0`, `""`,
`[]` and `{}` are falsy, everything else truthy. -/
def pyTruthy : Json → Bool
  | .null => false
  | .bool b => b
  | .num n => n ≠ 0
  | .str s => s ≠ ""
  | .arr es => !es.isEmpty
  | .obj ms => !ms.isEmpty

/-- The test `v is not None and v != [] and v != {} and v != ""` used by the
dict/list comprehensions of every `clean_json_dict` in the repository, in its
negated form: `true` iff the value is dropped.  Python compares `0`/`False`
unequal to `""`/`[]`/`{}`, so non-null falsy scalars are not dropped. -/
def isDropped : Json → Bool
  | .null => true
  | .str s => s = ""
  | .arr es => es.isEmpty
  | .obj ms => ms.isEmpty
  | _ => false

/-- The scholar variant of the drop test:
`v is not None and (not isinstance(v, (dict, list)) or v)` negated — drops
`None` and empty dicts/lists but keeps empty strings
(src/serpapi_google_scholar.py lines 489-494). -/
def isDroppedScholar : Json → Bool
  | .null => true
  | .arr es => es.isEmpty
  | .obj ms => ms.isEmpty
  | _ => false

end Json

mutual

/-- Embeds `clean_json_dict` of src/serpapi_google_search.py lines 676-688
(the same function appears verbatim in serpapi_google_trend.py lines 420-432
and serpapi_google_images.py lines 596-608): dict comprehension filtering on
the original value `v`, then recursing; list comprehension likewise, with an
emptied list replaced by `None` (`return cleaned_list if cleaned_list else
None`). -/
def clean_json_dict : Json → Json
  | .null => .null
  | .bool b => .bool b
  | .num n => .num n
  | .str s => .str s
  | .arr es =>
    match clean_json_dict_elems es with
    | [] => .null
    | cleaned => .arr cleaned
  | .obj ms => .obj (clean_json_dict_fields ms)

/-- The dict comprehension of `clean_json_dict`:
`{k: clean_json_dict(v) for k, v in data.items() if v is not None and v != []
and v != {} and v != ""}`. -/
def clean_json_dict_fields : List (String × Json) → List (String × Json)
  | [] => []
  | (k, v) :: rest =>
    if v.isDropped then clean_json_dict_fields rest
    else (k, clean_json_dict v) :: clean_json_dict_fields rest

/-- The list comprehension of `clean_json_dict`:
`[clean_json_dict(v) for v in data if v is not None and v != [] and v != {}
and v != ""]`. -/
def clean_json_dict_elems : List Json → List Json
  | [] => []
  | v :: rest =>
    if v.isDropped then clean_json_dict_elems rest
    else clean_json_dict v :: clean_json_dict_elems rest

end

mutual

/-- Embeds `clean_json_dict` of src/serpapi_google_maps.py lines 507-517 (the
same function appears in serpapi_google_finance.py lines 371-381 and
serpapi_google_news.py lines 451-461): dicts filter on the original value as
in the search variant, but lists drop only `None` elements and an emptied
list is kept as `[]`. -/
def clean_json_dict_maps : Json → Json
  | .null => .null
  | .bool b => .bool b
  | .num n => .num n
  | .str s => .str s
  | .arr es => .arr (clean_json_dict_maps_elems es)
  | .obj ms => .obj (clean_json_dict_maps_fields ms)

/-- The dict comprehension of the maps/finance/news `clean_json_dict`. -/
def clean_json_dict_maps_fields : List (String × Json) → List (String × Json)
  | [] => []
  | (k, v) :: rest =>
    if v.isDropped then clean_json_dict_maps_fields rest
    else (k, clean_json_dict_maps v) :: clean_json_dict_maps_fields rest

/-- The list comprehension of the maps/finance/news `clean_json_dict`:
`[clean_json_dict(i) for i in d if i is not None]`. -/
def clean_json_dict_maps_elems : List Json → List Json
  | [] => []
  | .null :: rest => clean_json_dict_maps_elems rest
  | v :: rest => clean_json_dict_maps v :: clean_json_dict_maps_elems rest

end

mutual

/-- Embeds `clean_json_dict` of src/serpapi_google_scholar.py lines 479-496:
both dicts and lists filter with
`v is not None and (not isinstance(v, (dict, list)) or v)`, so empty strings
are kept; emptied containers are kept. -/
def clean_json_dict_scholar : Json → Json
  | .null => .null
  | .bool b => .bool b
  | .num n => .num n
  | .str s => .str s
  | .arr es => .arr (clean_json_dict_scholar_elems es)
  | .obj ms => .obj (clean_json_dict_scholar_fields ms)

/-- The dict comprehension of the scholar `clean_json_dict`. -/
def clean_json_dict_scholar_fields : List (String × Json) → List (String × Json)
  | [] => []
  | (k, v) :: rest =>
    if v.isDroppedScholar then clean_json_dict_scholar_fields rest
    else (k, clean_json_dict_scholar v) :: clean_json_dict_scholar_fields rest

/-- The list comprehension of the scholar `clean_json_dict`. -/
def clean_json_dict_scholar_elems : List Json → List Json
  | [] => []
  | v :: rest =>
    if v.isDroppedScholar then clean_json_dict_scholar_elems rest
    else clean_json_dict_scholar v :: clean_json_dict_scholar_elems rest

end

mutual

/-- Embeds `clean_json_dict` of src/youtube_transcript.py lines 234-245 (the
same function appears in serpapi_youtube_search.py lines 596-607): as the
search variant but an emptied list is returned as `[]`, not `None`. -/
def clean_json_dict_transcript : Json → Json
  | .null => .null
  | .bool b => .bool b
  | .num n => .num n
  | .str s => .str s
  | .arr es => .arr (clean_json_dict_transcript_elems es)
  | .obj ms => .obj (clean_json_dict_transcript_fields ms)

/-- The dict comprehension of the transcript/youtube-search `clean_json_dict`. -/
def clean_json_dict_transcript_fields : List (String × Json) → List (String × Json)
  | [] => []
  | (k, v) :: rest =>
    if v.isDropped then clean_json_dict_transcript_fields rest
    else (k, clean_json_dict_transcript v) :: clean_json_dict_transcript_fields rest

/-- The list comprehension of the transcript/youtube-search `clean_json_dict`. -/
def clean_json_dict_transcript_elems : List Json → List Json
  | [] => []
  | v :: rest =>
    if v.isDropped then clean_json_dict_transcript_elems rest
    else clean_json_dict_transcript v :: clean_json_dict_transcript_elems rest

end

mutual

/-- Modelled from the spec, for comparison with `clean_json_dict`: the
reference pruning of spec section 4.4 — recursively reconstruct the value,
dropping from maps any key whose *recursively cleaned* value is `null`, `""`,
`[]` or `{}` (recursion before the emptiness check), and dropping from lists
only `null` elements. -/
def spec_clean_ref : Json → Json
  | .null => .null
  | .bool b => .bool b
  | .num n => .num n
  | .str s => .str s
  | .arr es => .arr (spec_clean_ref_elems es)
  | .obj ms => .obj (spec_clean_ref_fields ms)

/-- Map part of `spec_clean_ref`: clean the value first, then drop the key if
the cleaned value is empty. -/
def spec_clean_ref_fields : List (String × Json) → List (String × Json)
  | [] => []
  | (k, v) :: rest =>
    match spec_clean_ref v with
    | v' => if v'.isDropped then spec_clean_ref_fields rest
            else (k, v') :: spec_clean_ref_fields rest

/-- List part of `spec_clean_ref`: drop only `null` elements, clean the rest. -/
def spec_clean_ref_elems : List Json → List Json
  | [] => []
  | .null :: rest => spec_clean_ref_elems rest
  | v :: rest => spec_clean_ref v :: spec_clean_ref_elems rest

end

/-! ## Payloads and the in-memory cache -/

/-- A formatted response as stored in a `CachedSearch` and returned by the
adapters: either a JSON document (raw or clean mode) or rendered markdown
text (readable mode). -/
inductive Payload where
  | json (j : Json)
  | text (s : String)
deriving Repr, Inhabited

/-- Embeds the `CachedSearch` objects (e.g. src/serpapi_google_finance.py
lines 94-105): the formatted response together with the
`asyncio.get_event_loop().time()` timestamp taken at construction, modelled
as `Int` seconds.  The scholar variant (serpapi_google_scholar.py lines
220-226) stores no timestamp; its entries are modelled with the timestamp
field unused. -/
structure CacheEntry where
  response : Payload
  timestamp : Int
deriving Repr, Inhabited

/-- The `self.cache` dict of every server, keyed by cache-key string. -/
abbrev Cache := List (String × CacheEntry)

/-- Python dict membership plus indexing: first entry with the given key. -/
def cacheFind : Cache → String → Option CacheEntry
  | [], _ => none
  | (k, e) :: rest, key => if k = key then some e else cacheFind rest key

/-- Python dict assignment `self.cache[cache_key] = CachedSearch(...)`:
overwrite any existing entry for the key. -/
def cachePut (c : Cache) (key : String) (e : CacheEntry) : Cache :=
  (key, e) :: (List.filter (fun p => p.1 ≠ key) c)

/-- Embeds the TTL-checked cache lookup shared verbatim by the six
TTL-enforcing adapters (serpapi_google_finance.py lines 140-145,
serpapi_google_maps.py lines 243-248, serpapi_google_news.py lines 245-250,
serpapi_google_trend.py lines 160-165, serpapi_google_images.py lines
325-330, serpapi_youtube_search.py lines 210-215):

`if cache_key in self.cache: if now - cached.timestamp < self.cache_ttl:
return cached.response` with `self.cache_ttl = 3600`; a stale entry falls
through to the upstream call. -/
def ttl_cache_get (cache : Cache) (key : String) (now : Int) : Option Payload :=
  match cacheFind cache key with
  | some cached => if now - cached.timestamp < 3600 then some cached.response else none
  | none => none

/-- Embeds the cache lookup of `SerpApiServer.search`
(src/serpapi_google_search.py lines 339-342): plain membership, with no
timestamp comparison — `if cache_key in self.cache: return
self.cache[cache_key].response`.  Note that the function receives no clock:
the stored entry is returned whatever its age, although the class also sets
`self.cache_ttl = 3600` (line 281). -/
def search_cache_lookup (cache : Cache) (key : String) : Option Payload :=
  match cacheFind cache key with
  | some cached => some cached.response
  | none => none

/-! ## Python string helpers: join, str(), json.dumps -/

/-- Python `sep.join(parts)`. -/
def pyJoin (sep : String) : List String → String
  | [] => ""
  | [s] => s
  | s :: rest => s ++ sep ++ pyJoin sep rest

/-- Python `str(b)` for a bool: `True` / `False`. -/
def pyBoolStr (b : Bool) : String := if b then "True" else "False"

/-- Hexadecimal digit, lowercase, as used by `json.dumps` escapes. -/
def hexDigit (n : Nat) : Char :=
  if n < 10 then Char.ofNat (48 + n) else Char.ofNat (87 + n)

/-- Four-digit lowercase hex, as in a `\uXXXX` escape. -/
def hex4 (n : Nat) : String :=
  String.mk [hexDigit (n / 4096 % 16), hexDigit (n / 256 % 16),
             hexDigit (n / 16 % 16), hexDigit (n % 16)]

/-- One character of a JSON string under `json.dumps` defaults
(`ensure_ascii=True`): the two-character escapes for quote, backslash and
the common controls, `\uXXXX` for other controls and all non-ASCII
characters (surrogate pairs above the BMP), the character itself otherwise. -/
def jsonEscapeChar (c : Char) : String :=
  if c = Char.ofNat 34 then "\\\""
  else if c = '\\' then "\\\\"
  else if c = Char.ofNat 10 then "\\n"
  else if c = Char.ofNat 9 then "\\t"
  else if c = Char.ofNat 13 then "\\r"
  else if c = Char.ofNat 8 then "\\b"
  else if c = Char.ofNat 12 then "\\f"
  else if c.toNat < 32 then "\\u" ++ hex4 c.toNat
  else if c.toNat < 127 then String.singleton c
  else if c.toNat < 65536 then "\\u" ++ hex4 c.toNat
  else
    "\\u" ++ hex4 (55296 + (c.toNat - 65536) / 1024)
      ++ "\\u" ++ hex4 (56320 + (c.toNat - 65536) % 1024)

/-- A JSON string literal as emitted by `json.dumps`. -/
def jsonQuote (s : String) : String :=
  "\"" ++ String.join (s.toList.map jsonEscapeChar) ++ "\""

/-- A value of the upstream query-parameter dicts built by the adapters:
the sources only ever store strings, ints, or `None` there. -/
inductive PyParam where
  | str (v : String)
  | int (v : Int)
  | null
deriving Repr, Inhabited

/-- `json.dumps` of one parameter value. -/
def pyParamDump : PyParam → String
  | .str v => jsonQuote v
  | .int v => toString v
  | .null => "null"

/-- Strict lexicographic comparison of character lists by code point, the
order Python string comparison uses. -/
def charListLt : List Char → List Char → Bool
  | [], [] => false
  | [], _ :: _ => true
  | _ :: _, [] => false
  | c :: cs, d :: ds =>
    if c.toNat < d.toNat then true
    else if d.toNat < c.toNat then false
    else charListLt cs ds

/-- Python `a < b` on strings. -/
def pyStrLt (a b : String) : Bool := charListLt a.toList b.toList

/-- Insert into a key-sorted parameter list (Python `sorted` is by code-point
order on the keys; parameter keys are unique, so ties cannot arise). -/
def insertParamSorted (p : String × PyParam) :
    List (String × PyParam) → List (String × PyParam)
  | [] => [p]
  | q :: rest => if pyStrLt p.1 q.1 then p :: q :: rest else q :: insertParamSorted p rest

/-- Key-sort a parameter list, as `json.dumps(..., sort_keys=True)` does. -/
def sortParams : List (String × PyParam) → List (String × PyParam)
  | [] => []
  | p :: rest => insertParamSorted p (sortParams rest)

/-- Embeds `json.dumps(params, sort_keys=True)` on a flat parameter dict:
keys sorted, default separators `", "` and `": "`. -/
def pyJsonDumpsSorted (params : List (String × PyParam)) : String :=
  "\x7b" ++
    pyJoin ", " ((sortParams params).map (fun p => jsonQuote p.1 ++ ": " ++ pyParamDump p.2))
    ++ "\x7d"

/-! ## Argument models and cache-key construction -/

/-- Python truthiness of an `Optional[str]` argument (`if args.hl:` keeps
only a present, non-empty string). -/
def optStrTruthy : Option String → Bool
  | some s => s ≠ ""
  | none => false

/-- Embeds `GoogleFinanceSearchArgs` (src/serpapi_google_finance.py lines
30-65).  Pydantic defaults: `hl`/`window` default `None`, the two mode flags
default `False`. -/
structure GoogleFinanceSearchArgs where
  q : String
  hl : Option String := none
  window : Option String := none
  raw_json : Bool := false
  readable_json : Bool := false
deriving Repr, Inhabited

/-- Embeds `SerpApiGoogleFinanceServer.__init__`: the state the cache-key and
search methods read from `self`. -/
structure SerpApiGoogleFinanceServer where
  api_key : String
deriving Repr, Inhabited

/-- The raw/readable/clean mode tag appended to the cache key by the six
`format=`-tagging adapters, following the flag priority raw > readable >
clean. -/
def financeFormatTag (raw_json readable_json : Bool) : String :=
  if raw_json then "format=raw_json"
  else if readable_json then "format=readable_json"
  else "format=clean_json"

/-- The `cache_key_parts` list of
`SerpApiGoogleFinanceServer.google_finance_search`
(src/serpapi_google_finance.py lines 122-135): unconditional `q=` part,
truthiness-guarded `hl=`/`window=` parts, then the `format=` tag. -/
def finance_cache_key_parts (args : GoogleFinanceSearchArgs) : List String :=
  ["q=" ++ args.q]
    ++ (match args.hl with
        | some s => if s = "" then [] else ["hl=" ++ s]
        | none => [])
    ++ (match args.window with
        | some s => if s = "" then [] else ["window=" ++ s]
        | none => [])
    ++ [financeFormatTag args.raw_json args.readable_json]

/-- `cache_key = "&".join(cache_key_parts)` of
`SerpApiGoogleFinanceServer.google_finance_search` (line 137).  The method
has `self` in scope but the key reads only `args`; the server parameter is
kept to mirror that. -/
def SerpApiGoogleFinanceServer.finance_cache_key
    (_server : SerpApiGoogleFinanceServer) (args : GoogleFinanceSearchArgs) : String :=
  pyJoin "&" (finance_cache_key_parts args)

/-- Embeds `GoogleMapsSearchArgs` as read by the cache-key construction of
`SerpApiGoogleMapsServer.google_maps_search` (src/serpapi_google_maps.py
lines 211-240): all parameters optional, `start` checked with `is not None`,
the rest by truthiness. -/
structure GoogleMapsSearchArgs where
  q : Option String := none
  type : Option String := none
  data : Option String := none
  place_id : Option String := none
  ll : Option String := none
  google_domain : Option String := none
  hl : Option String := none
  gl : Option String := none
  start : Option Int := none
  raw_json : Bool := false
  readable_json : Bool := false
deriving Repr, Inhabited

/-- Embeds `SerpApiGoogleMapsServer.__init__`: the state read from `self`. -/
structure SerpApiGoogleMapsServer where
  api_key : String
deriving Repr, Inhabited

/-- The `cache_key_parts` list of `google_maps_search`
(src/serpapi_google_maps.py lines 212-238). -/
def maps_cache_key_parts (args : GoogleMapsSearchArgs) : List String :=
  (if optStrTruthy args.q then ["q=" ++ args.q.getD ""] else [])
    ++ (if optStrTruthy args.type then ["type=" ++ args.type.getD ""] else [])
    ++ (if optStrTruthy args.data then ["data=" ++ args.data.getD ""] else [])
    ++ (if optStrTruthy args.place_id then ["place_id=" ++ args.place_id.getD ""] else [])
    ++ (if optStrTruthy args.ll then ["ll=" ++ args.ll.getD ""] else [])
    ++ (if optStrTruthy args.google_domain then ["google_domain=" ++ args.google_domain.getD ""] else [])
    ++ (if optStrTruthy args.hl then ["hl=" ++ args.hl.getD ""] else [])
    ++ (if optStrTruthy args.gl then ["gl=" ++ args.gl.getD ""] else [])
    ++ (match args.start with
        | some v => ["start=" ++ toString v]
        | none => [])
    ++ [financeFormatTag args.raw_json args.readable_json]

/-- `cache_key = "&".join(cache_key_parts)` of `google_maps_search`
(line 240); like the finance key, it never reads `self.api_key`. -/
def SerpApiGoogleMapsServer.maps_cache_key
    (_server : SerpApiGoogleMapsServer) (args : GoogleMapsSearchArgs) : String :=
  pyJoin "&" (maps_cache_key_parts args)

/-- Embeds `GoogleSearchArgs` (src/serpapi_google_search.py lines 30-138).
`num` is `Optional[int]` with pydantic default `10`; the optional string
parameters default `None`; the domain lists default `[]`; the mode flags
default `False`. -/
structure GoogleSearchArgs where
  q : String
  num : Option Int := some 10
  start : Option Int := none
  location : Option String := none
  gl : Option String := none
  hl : Option String := none
  device : Option String := none
  safe : Option String := none
  filter : Option String := none
  time_period : Option String := none
  exactTerms : Option String := none
  include_domains : List String := []
  exclude_domains : List String := []
  raw_json : Bool := false
  readable_json : Bool := false
deriving Repr, Inhabited

/-- Embeds `SerpApiServer.__init__` (src/serpapi_google_search.py lines
270-282): the state read by `search`. -/
structure SerpApiServer where
  api_key : String
deriving Repr, Inhabited

/-- An `Optional[int]` as stored in a query-parameter dict (`None` serializes
to JSON `null`). -/
def optIntParam : Option Int → PyParam
  | some v => .int v
  | none => .null

/-- Replace the value stored under an existing key of a parameter dict,
keeping its position, as Python dict assignment does for a present key. -/
def setParam : List (String × PyParam) → String → PyParam → List (String × PyParam)
  | [], _, _ => []
  | (k, v) :: rest, key, newV =>
    if k = key then (k, newV) :: rest else (k, v) :: setParam rest key newV

/-- Embeds the `params` construction of `SerpApiServer.search`
(src/serpapi_google_search.py lines 287-325): base dict `engine`, `api_key`,
`q`, `num`; `is not None`-guarded optionals in source order (`time_period`
entering as `tbs` with a `qdr:` value); then the in-place rewriting of
`params["q"]` for truthy `include_domains` / `exclude_domains`. -/
def search_build_params (api_key : String) (args : GoogleSearchArgs) :
    List (String × PyParam) :=
  let base : List (String × PyParam) :=
    [("engine", .str "google"), ("api_key", .str api_key),
     ("q", .str args.q), ("num", optIntParam args.num)]
    ++ (match args.start with | some v => [("start", .int v)] | none => [])
    ++ (match args.location with | some s => [("location", .str s)] | none => [])
    ++ (match args.gl with | some s => [("gl", .str s)] | none => [])
    ++ (match args.hl with | some s => [("hl", .str s)] | none => [])
    ++ (match args.device with | some s => [("device", .str s)] | none => [])
    ++ (match args.safe with | some s => [("safe", .str s)] | none => [])
    ++ (match args.filter with | some s => [("filter", .str s)] | none => [])
    ++ (match args.time_period with
        | some tp => [("tbs", .str ("qdr:" ++ tp))]
        | none => [])
    ++ (match args.exactTerms with | some t => [("exactTerms", .str t)] | none => [])
  let q1 :=
    if args.include_domains.isEmpty then args.q
    else "(" ++ args.q ++ ") "
      ++ pyJoin " OR " (args.include_domains.map (fun d => "site:" ++ d))
  let q2 :=
    if args.exclude_domains.isEmpty then q1
    else q1 ++ " " ++ pyJoin " " (args.exclude_domains.map (fun d => "-site:" ++ d))
  setParam base "q" (.str q2)

/-- Embeds the cache-key construction of `SerpApiServer.search`
(src/serpapi_google_search.py lines 327-336):
`cache_key = json.dumps(params, sort_keys=True)` — `params` includes
`self.api_key` — then a `_raw` / `_readable` / `_clean` suffix by flag
priority. -/
def SerpApiServer.search_cache_key
    (server : SerpApiServer) (args : GoogleSearchArgs) : String :=
  pyJsonDumpsSorted (search_build_params server.api_key args)
    ++ (if args.raw_json then "_raw"
        else if args.readable_json then "_readable"
        else "_clean")

/-- Embeds `GoogleScholarArgs` (src/serpapi_google_scholar.py lines 39-166);
every search parameter is optional, the mode flags default `False`. -/
structure GoogleScholarArgs where
  q : Option String := none
  hl : Option String := none
  lr : Option String := none
  start : Option Int := none
  num : Option Int := none
  cites : Option String := none
  as_ylo : Option Int := none
  as_yhi : Option Int := none
  scisbd : Option Int := none
  cluster : Option String := none
  as_sdt : Option String := none
  safe : Option String := none
  filter : Option String := none
  as_vis : Option String := none
  as_rr : Option String := none
  raw_json : Bool := false
  readable_json : Bool := false
deriving Repr, Inhabited

/-- Embeds `SerpApiGoogleScholarServer.__init__`
(src/serpapi_google_scholar.py lines 231-235). -/
structure SerpApiGoogleScholarServer where
  api_key : String
deriving Repr, Inhabited

/-- Embeds the `params` construction of
`SerpApiGoogleScholarServer.google_scholar_search`
(src/serpapi_google_scholar.py lines 241-276): `engine` and `api_key`, then
each optional parameter under an `is not None` guard, in source order. -/
def scholar_build_params (api_key : String) (args : GoogleScholarArgs) :
    List (String × PyParam) :=
  [("engine", .str "google_scholar"), ("api_key", .str api_key)]
    ++ (match args.q with | some s => [("q", .str s)] | none => [])
    ++ (match args.hl with | some s => [("hl", .str s)] | none => [])
    ++ (match args.lr with | some s => [("lr", .str s)] | none => [])
    ++ (match args.start with | some v => [("start", .int v)] | none => [])
    ++ (match args.num with | some v => [("num", .int v)] | none => [])
    ++ (match args.cites with | some s => [("cites", .str s)] | none => [])
    ++ (match args.as_ylo with | some v => [("as_ylo", .int v)] | none => [])
    ++ (match args.as_yhi with | some v => [("as_yhi", .int v)] | none => [])
    ++ (match args.scisbd with | some v => [("scisbd", .int v)] | none => [])
    ++ (match args.cluster with | some s => [("cluster", .str s)] | none => [])
    ++ (match args.as_sdt with | some s => [("as_sdt", .str s)] | none => [])
    ++ (match args.safe with | some s => [("safe", .str s)] | none => [])
    ++ (match args.filter with | some s => [("filter", .str s)] | none => [])
    ++ (match args.as_vis with | some s => [("as_vis", .str s)] | none => [])
    ++ (match args.as_rr with | some s => [("as_rr", .str s)] | none => [])

/-- Embeds the cache-key construction of `google_scholar_search`
(src/serpapi_google_scholar.py line 279):
`cache_key = json.dumps(params, sort_keys=True)` — no output-mode tag of any
kind is appended, and `params` includes `self.api_key`. -/
def SerpApiGoogleScholarServer.scholar_cache_key
    (server : SerpApiGoogleScholarServer) (args : GoogleScholarArgs) : String :=
  pyJsonDumpsSorted (scholar_build_params server.api_key args)

/-! ## Python `str()` / `repr()` of decoded JSON values -/

/-- Python `repr` of a string, as it appears inside the repr of a container:
single-quoted, with backslash and the quote escaped (the model always uses
single quotes; Python switches quote style for strings containing them, a
difference no theorem below depends on). -/
def pySQuote (s : String) : String :=
  String.singleton (Char.ofNat 39)
    ++ String.join (s.toList.map (fun c =>
        if c = '\\' then "\\\\"
        else if c = Char.ofNat 39 then "\\" ++ String.singleton (Char.ofNat 39)
        else String.singleton c))
    ++ String.singleton (Char.ofNat 39)

mutual

/-- Python `repr` of a decoded JSON value (`None`, `True`, decimal ints,
quoted strings, `[...]`, and dict repr). -/
def pyRepr : Json → String
  | .null => "None"
  | .bool b => pyBoolStr b
  | .num n => toString n
  | .str s => pySQuote s
  | .arr es => "[" ++ pyJoin ", " (pyReprElems es) ++ "]"
  | .obj ms => "\x7b" ++ pyJoin ", " (pyReprFields ms) ++ "\x7d"

/-- Element reprs of a list. -/
def pyReprElems : List Json → List String
  | [] => []
  | v :: rest => pyRepr v :: pyReprElems rest

/-- Member reprs of a dict. -/
def pyReprFields : List (String × Json) → List String
  | [] => []
  | (k, v) :: rest => (pySQuote k ++ ": " ++ pyRepr v) :: pyReprFields rest

end

/-- Python `str()` of a decoded JSON value, as an f-string interpolation
produces: a string interpolates as itself, everything else as its repr. -/
def pyStr : Json → String
  | .str s => s
  | j => pyRepr j

/-- Python `str()` of an `Optional[str]` model field under f-string
interpolation: `None` prints as `None`. -/
def pyStrOpt : Option String → String
  | some s => s
  | none => "None"

/-- Python `str()` of an `Optional[float]` model field (floats are modelled
as `Int`, see the module comment). -/
def pyStrOptInt : Option Int → String
  | some n => toString n
  | none => "None"

/-- Iterating a JSON value and stringifying each element, as
`', '.join(str(p) for p in x)` does: a list yields its elements, a dict its
keys, a string its characters; other scalars are not iterable in Python (the
model yields nothing where Python would raise `TypeError`; no theorem
exercises that case). -/
def jsonIterStrs : Json → List String
  | .arr es => es.map pyStr
  | .obj ms => ms.map (fun m => m.1)
  | .str s => s.toList.map String.singleton
  | _ => []

/-- Python `str.capitalize()`: first character upper-cased, the rest
lower-cased. -/
def pyCapitalize (s : String) : String :=
  match s.toList with
  | [] => ""
  | c :: rest => String.mk (c.toUpper :: rest.map Char.toLower)

namespace Json

/-- Python `d.get(key, default)` on a JSON dict, with a JSON default. -/
def getD (ms : List (String × Json)) (key : String) (default : Json) : Json :=
  match lookupKey ms key with
  | some v => v
  | none => default

/-- Python `key in d`. -/
def hasKey (ms : List (String × Json)) (key : String) : Bool :=
  (lookupKey ms key).isSome

end Json

/-! ## Pydantic response models and their coercion

The `*ResponseData(**json_response)` constructions are modelled by explicit
parsers in an `Except String` monad; `.error` corresponds to a pydantic
`ValidationError` being raised.  The model checks the structural requirements
the source classes declare (required fields present and non-null, dict/list
field types, submodel fields); lax numeric-string coercions of pydantic are
not modelled — no theorem below depends on them. -/

namespace Coerce

/-- Coerce to a dict (`Dict[str, Any]`). -/
def asDict : Json → Except String (List (String × Json))
  | .obj ms => .ok ms
  | _ => .error "value is not a valid dict"

/-- Coerce to a string (`str`). -/
def asStr : Json → Except String String
  | .str s => .ok s
  | _ => .error "value is not a valid string"

/-- Coerce to an integer (`int` / `float`-typed fields, modelled as `Int`). -/
def asInt : Json → Except String Int
  | .num n => .ok n
  | _ => .error "value is not a valid number"

/-- Coerce to `List[Dict[str, Any]]`. -/
def asListOfDicts : Json → Except String (List (List (String × Json)))
  | .arr es => es.mapM asDict
  | _ => .error "value is not a valid list"

/-- Coerce to `List[str]`. -/
def asListOfStr : Json → Except String (List String)
  | .arr es => es.mapM asStr
  | _ => .error "value is not a valid list"

/-- An `Optional[T]` field: absent or `null` is `None`; a present value must
coerce. -/
def optField (ms : List (String × Json)) (key : String)
    (f : Json → Except String α) : Except String (Option α) :=
  match Json.lookupKey ms key with
  | none => .ok none
  | some .null => .ok none
  | some v => (f v).map some

/-- A required field: must be present, non-null, and coerce. -/
def reqField (ms : List (String × Json)) (key : String)
    (f : Json → Except String α) : Except String α :=
  match Json.lookupKey ms key with
  | none => .error ("field required: " ++ key)
  | some .null => .error ("field required: " ++ key)
  | some v => f v

end Coerce

/-- Embeds `GoogleSearchResult` (src/serpapi_google_search.py lines 188-201):
`position`, `title`, `link`, `displayed_link` required, the rest optional. -/
structure GoogleSearchResult where
  position : Int
  title : String
  link : String
  displayed_link : String
  snippet : Option String := none
  snippet_highlighted_words : Option (List String) := none
  date : Option String := none
  favicon : Option String := none
  source_icon : Option String := none
  cached_page_link : Option String := none
  related_pages_link : Option String := none
  sitelinks : Option (List (String × Json)) := none
deriving Repr, Inhabited

/-- Coercion into `GoogleSearchResult`. -/
def parseGoogleSearchResult (j : Json) : Except String GoogleSearchResult := do
  let ms ← Coerce.asDict j
  let position ← Coerce.reqField ms "position" Coerce.asInt
  let title ← Coerce.reqField ms "title" Coerce.asStr
  let link ← Coerce.reqField ms "link" Coerce.asStr
  let displayed_link ← Coerce.reqField ms "displayed_link" Coerce.asStr
  let snippet ← Coerce.optField ms "snippet" Coerce.asStr
  let shw ← Coerce.optField ms "snippet_highlighted_words" Coerce.asListOfStr
  let date ← Coerce.optField ms "date" Coerce.asStr
  let favicon ← Coerce.optField ms "favicon" Coerce.asStr
  let source_icon ← Coerce.optField ms "source_icon" Coerce.asStr
  let cached_page_link ← Coerce.optField ms "cached_page_link" Coerce.asStr
  let related_pages_link ← Coerce.optField ms "related_pages_link" Coerce.asStr
  let sitelinks ← Coerce.optField ms "sitelinks" Coerce.asDict
  .ok { position, title, link, displayed_link, snippet,
        snippet_highlighted_words := shw, date, favicon, source_icon,
        cached_page_link, related_pages_link, sitelinks }

/-- Embeds `SearchResponseData` (src/serpapi_google_search.py lines 203-230):
`search_metadata`, `search_parameters` and `organic_results` are required;
every other field is optional. -/
structure SearchResponseData where
  search_metadata : List (String × Json)
  search_parameters : List (String × Json)
  search_information : Option (List (String × Json)) := none
  organic_results : List GoogleSearchResult
  related_searches : Option (List (List (String × Json))) := none
  pagination : Option (List (String × Json)) := none
  serpapi_pagination : Option (List (String × Json)) := none
  knowledge_graph : Option (List (String × Json)) := none
  answer_box : Option (List (String × Json)) := none
  related_questions : Option (List (List (String × Json))) := none
  shopping_results : Option (List (List (String × Json))) := none
  top_stories : Option (List (List (String × Json))) := none
  news_results : Option (List (List (String × Json))) := none
  local_results : Option (List (String × Json)) := none
  local_map : Option (List (String × Json)) := none
  images_results : Option (List (List (String × Json))) := none
  video_results : Option (List (List (String × Json))) := none
  twitter_results : Option (List (List (String × Json))) := none
  jobs_results : Option (List (String × Json)) := none
  recipes_results : Option (List (List (String × Json))) := none
  ads : Option (List (String × Json)) := none
  inline_videos : Option (List (List (String × Json))) := none
  inline_images : Option (List (List (String × Json))) := none
  inline_shopping : Option (List (List (String × Json))) := none
  inline_tweets : Option (List (List (String × Json))) := none
  error : Option String := none
deriving Repr, Inhabited

/-- Embeds `SearchResponseData(**json_response)`: the coercion performed
before readable-mode rendering in `SerpApiServer.search` (line 375). -/
def parseSearchResponseData (j : Json) : Except String SearchResponseData := do
  let ms ← Coerce.asDict j
  let search_metadata ← Coerce.reqField ms "search_metadata" Coerce.asDict
  let search_parameters ← Coerce.reqField ms "search_parameters" Coerce.asDict
  let search_information ← Coerce.optField ms "search_information" Coerce.asDict
  let organic_results ← Coerce.reqField ms "organic_results"
    (fun v => match v with
      | .arr es => es.mapM parseGoogleSearchResult
      | _ => .error "value is not a valid list")
  let related_searches ← Coerce.optField ms "related_searches" Coerce.asListOfDicts
  let pagination ← Coerce.optField ms "pagination" Coerce.asDict
  let serpapi_pagination ← Coerce.optField ms "serpapi_pagination" Coerce.asDict
  let knowledge_graph ← Coerce.optField ms "knowledge_graph" Coerce.asDict
  let answer_box ← Coerce.optField ms "answer_box" Coerce.asDict
  let related_questions ← Coerce.optField ms "related_questions" Coerce.asListOfDicts
  let shopping_results ← Coerce.optField ms "shopping_results" Coerce.asListOfDicts
  let top_stories ← Coerce.optField ms "top_stories" Coerce.asListOfDicts
  let news_results ← Coerce.optField ms "news_results" Coerce.asListOfDicts
  let local_results ← Coerce.optField ms "local_results" Coerce.asDict
  let local_map ← Coerce.optField ms "local_map" Coerce.asDict
  let images_results ← Coerce.optField ms "images_results" Coerce.asListOfDicts
  let video_results ← Coerce.optField ms "video_results" Coerce.asListOfDicts
  let twitter_results ← Coerce.optField ms "twitter_results" Coerce.asListOfDicts
  let jobs_results ← Coerce.optField ms "jobs_results" Coerce.asDict
  let recipes_results ← Coerce.optField ms "recipes_results" Coerce.asListOfDicts
  let ads ← Coerce.optField ms "ads" Coerce.asDict
  let inline_videos ← Coerce.optField ms "inline_videos" Coerce.asListOfDicts
  let inline_images ← Coerce.optField ms "inline_images" Coerce.asListOfDicts
  let inline_shopping ← Coerce.optField ms "inline_shopping" Coerce.asListOfDicts
  let inline_tweets ← Coerce.optField ms "inline_tweets" Coerce.asListOfDicts
  let error ← Coerce.optField ms "error" Coerce.asStr
  .ok { search_metadata, search_parameters, search_information, organic_results,
        related_searches, pagination, serpapi_pagination, knowledge_graph,
        answer_box, related_questions, shopping_results, top_stories,
        news_results, local_results, local_map, images_results, video_results,
        twitter_results, jobs_results, recipes_results, ads, inline_videos,
        inline_images, inline_shopping, inline_tweets, error }

/-- Embeds `StockPriceMovement` (src/serpapi_google_finance.py lines 67-71);
floats are modelled as `Int`. -/
structure StockPriceMovement where
  percentage : Option Int := none
  value : Option Int := none
  movement : Option String := none
deriving Repr, Inhabited

/-- Coercion into `StockPriceMovement`. -/
def parseStockPriceMovement (j : Json) : Except String StockPriceMovement := do
  let ms ← Coerce.asDict j
  let percentage ← Coerce.optField ms "percentage" Coerce.asInt
  let value ← Coerce.optField ms "value" Coerce.asInt
  let movement ← Coerce.optField ms "movement" Coerce.asStr
  .ok { percentage, value, movement }

/-- Embeds `StockInfo` (src/serpapi_google_finance.py lines 73-81). -/
structure StockInfo where
  stock : Option String := none
  link : Option String := none
  serpapi_link : Option String := none
  name : Option String := none
  price : Option Int := none
  price_movement : Option StockPriceMovement := none
  currency : Option String := none
deriving Repr, Inhabited

/-- Coercion into `StockInfo`. -/
def parseStockInfo (j : Json) : Except String StockInfo := do
  let ms ← Coerce.asDict j
  let stock ← Coerce.optField ms "stock" Coerce.asStr
  let link ← Coerce.optField ms "link" Coerce.asStr
  let serpapi_link ← Coerce.optField ms "serpapi_link" Coerce.asStr
  let name ← Coerce.optField ms "name" Coerce.asStr
  let price ← Coerce.optField ms "price" Coerce.asInt
  let price_movement ← Coerce.optField ms "price_movement" parseStockPriceMovement
  let currency ← Coerce.optField ms "currency" Coerce.asStr
  .ok { stock, link, serpapi_link, name, price, price_movement, currency }

/-- Embeds `GoogleFinanceResponseData` (src/serpapi_google_finance.py lines
83-92): `search_metadata` and `search_parameters` required, `markets` a
`Dict[str, List[StockInfo]]`, the rest optional. -/
structure GoogleFinanceResponseData where
  search_metadata : List (String × Json)
  search_parameters : List (String × Json)
  markets : Option (List (String × List StockInfo)) := none
  stock_info : Option (List (String × Json)) := none
  graph : Option (List (String × Json)) := none
  news_results : Option (List (List (String × Json))) := none
  people_also_search_for : Option (List (List (String × Json))) := none
  error : Option String := none
deriving Repr, Inhabited

/-- Coercion into `GoogleFinanceResponseData`, modelling
`GoogleFinanceResponseData(**data)`. -/
def parseGoogleFinanceResponseData (j : Json) :
    Except String GoogleFinanceResponseData := do
  let ms ← Coerce.asDict j
  let search_metadata ← Coerce.reqField ms "search_metadata" Coerce.asDict
  let search_parameters ← Coerce.reqField ms "search_parameters" Coerce.asDict
  let markets ← Coerce.optField ms "markets"
    (fun v => do
      let d ← Coerce.asDict v
      d.mapM (fun m => do
        let stocks ← match m.2 with
          | .arr es => es.mapM parseStockInfo
          | _ => .error "value is not a valid list"
        pure (m.1, stocks)))
  let stock_info ← Coerce.optField ms "stock_info" Coerce.asDict
  let graph ← Coerce.optField ms "graph" Coerce.asDict
  let news_results ← Coerce.optField ms "news_results" Coerce.asListOfDicts
  let pasf ← Coerce.optField ms "people_also_search_for" Coerce.asListOfDicts
  let error ← Coerce.optField ms "error" Coerce.asStr
  .ok { search_metadata, search_parameters, markets, stock_info, graph,
        news_results, people_also_search_for := pasf, error }

/-- Embeds `GoogleScholarAuthor` (src/serpapi_google_scholar.py lines
187-191). -/
structure GoogleScholarAuthor where
  name : Option String := none
  link : Option String := none
  serpapi_link : Option String := none
deriving Repr, Inhabited

/-- Coercion into `GoogleScholarAuthor`. -/
def parseGoogleScholarAuthor (j : Json) : Except String GoogleScholarAuthor := do
  let ms ← Coerce.asDict j
  let name ← Coerce.optField ms "name" Coerce.asStr
  let link ← Coerce.optField ms "link" Coerce.asStr
  let serpapi_link ← Coerce.optField ms "serpapi_link" Coerce.asStr
  .ok { name, link, serpapi_link }

/-- Embeds `GoogleScholarResult` (src/serpapi_google_scholar.py lines
193-206): only `title` is required. -/
structure GoogleScholarResult where
  position : Option Int := none
  title : String
  result_id : Option String := none
  link : Option String := none
  snippet : Option String := none
  publication_info : Option (List (String × Json)) := none
  resources : Option (List (List (String × Json))) := none
  inline_links : Option (List (String × Json)) := none
  cited_by : Option (List (String × Json)) := none
  authors : Option (List GoogleScholarAuthor) := none
  year : Option String := none
  journal : Option String := none
deriving Repr, Inhabited

/-- Coercion into `GoogleScholarResult`. -/
def parseGoogleScholarResult (j : Json) : Except String GoogleScholarResult := do
  let ms ← Coerce.asDict j
  let position ← Coerce.optField ms "position" Coerce.asInt
  let title ← Coerce.reqField ms "title" Coerce.asStr
  let result_id ← Coerce.optField ms "result_id" Coerce.asStr
  let link ← Coerce.optField ms "link" Coerce.asStr
  let snippet ← Coerce.optField ms "snippet" Coerce.asStr
  let publication_info ← Coerce.optField ms "publication_info" Coerce.asDict
  let resources ← Coerce.optField ms "resources" Coerce.asListOfDicts
  let inline_links ← Coerce.optField ms "inline_links" Coerce.asDict
  let cited_by ← Coerce.optField ms "cited_by" Coerce.asDict
  let authors ← Coerce.optField ms "authors"
    (fun v => match v with
      | .arr es => es.mapM parseGoogleScholarAuthor
      | _ => .error "value is not a valid list")
  let year ← Coerce.optField ms "year" Coerce.asStr
  let journal ← Coerce.optField ms "journal" Coerce.asStr
  .ok { position, title, result_id, link, snippet, publication_info,
        resources, inline_links, cited_by, authors, year, journal }

/-- Embeds `GoogleScholarResponseData` (src/serpapi_google_scholar.py lines
208-218): `search_metadata` and `search_parameters` required, the rest
optional. -/
structure GoogleScholarResponseData where
  search_metadata : List (String × Json)
  search_parameters : List (String × Json)
  search_information : Option (List (String × Json)) := none
  organic_results : Option (List GoogleScholarResult) := none
  pagination : Option (List (String × Json)) := none
  serpapi_pagination : Option (List (String × Json)) := none
  related_searches : Option (List (List (String × Json))) := none
  filters : Option (List (String × Json)) := none
  error : Option String := none
deriving Repr, Inhabited

/-- Coercion into `GoogleScholarResponseData`, modelling
`GoogleScholarResponseData(**json_response)`. -/
def parseGoogleScholarResponseData (j : Json) :
    Except String GoogleScholarResponseData := do
  let ms ← Coerce.asDict j
  let search_metadata ← Coerce.reqField ms "search_metadata" Coerce.asDict
  let search_parameters ← Coerce.reqField ms "search_parameters" Coerce.asDict
  let search_information ← Coerce.optField ms "search_information" Coerce.asDict
  let organic_results ← Coerce.optField ms "organic_results"
    (fun v => match v with
      | .arr es => es.mapM parseGoogleScholarResult
      | _ => .error "value is not a valid list")
  let pagination ← Coerce.optField ms "pagination" Coerce.asDict
  let serpapi_pagination ← Coerce.optField ms "serpapi_pagination" Coerce.asDict
  let related_searches ← Coerce.optField ms "related_searches" Coerce.asListOfDicts
  let filters ← Coerce.optField ms "filters" Coerce.asDict
  let error ← Coerce.optField ms "error" Coerce.asStr
  .ok { search_metadata, search_parameters, search_information, organic_results,
        pagination, serpapi_pagination, related_searches, filters, error }

/-! ## Readable-mode renderers -/

/-- Truthiness of an `Optional[Dict]` model field (`None` and `{}` falsy). -/
def optDictTruthy : Option (List (String × Json)) → Bool
  | some ms => !ms.isEmpty
  | none => false

/-- Truthiness of an `Optional[List[...]]` model field. -/
def optListTruthy : Option (List α) → Bool
  | some xs => !xs.isEmpty
  | none => false

/-- Iterating a JSON value expected to be a list (`for x in v`); a non-list
yields nothing where Python would raise, a case no theorem exercises. -/
def jsonElems : Json → List Json
  | .arr es => es
  | _ => []

/-- `v.items()` on a JSON value expected to be a dict. -/
def jsonItems : Json → List (String × Json)
  | .obj ms => ms
  | _ => []

/-- `v.get(key, default)` on a JSON value expected to be a dict. -/
def jsonDictGetD (j : Json) (key : String) (default : Json) : Json :=
  match j with
  | .obj ms => Json.getD ms key default
  | _ => default

/-- `enumerate` with the running index. -/
def enumFrom (i : Nat) : List α → List (Nat × α)
  | [] => []
  | x :: rest => (i, x) :: enumFrom (i + 1) rest

/-- The sitelink-list rendering inside the organic-results loop of
`format_search_results` (lines 551-558): `- [title](link)` items, expanded
entries optionally followed by an indented description. -/
def searchSitelinkLines (expanded : Bool) (links : List Json) : List String :=
  links.flatMap (fun link =>
    ["- [" ++ pyStr (jsonDictGetD link "title" (.str "Link")) ++ "]("
        ++ pyStr (jsonDictGetD link "link" (.str "#")) ++ ")"]
    ++ (if expanded then
          match link with
          | .obj ms =>
            if Json.hasKey ms "description" then
              ["  " ++ pyStr (Json.getD ms "description" .null)]
            else []
          | _ => []
        else []))

/-- One organic result's lines (`format_search_results` lines 541-559). -/
def searchOrganicResultLines (i : Nat) (res : GoogleSearchResult) : List String :=
  ["## " ++ toString (i + 1) ++ ". " ++ res.title,
   "Link: " ++ res.link,
   "Displayed Link: " ++ res.displayed_link]
  ++ (match res.snippet with
      | some s => if s ≠ "" then ["\n" ++ s] else []
      | none => [])
  ++ (match res.date with
      | some d => if d ≠ "" then ["\nDate: " ++ d] else []
      | none => [])
  ++ (if optDictTruthy res.sitelinks then
        let sl := res.sitelinks.getD []
        ["\nSitelinks:"]
        ++ (if Json.hasKey sl "inline" then
              searchSitelinkLines false (jsonElems (Json.getD sl "inline" .null))
            else [])
        ++ (if Json.hasKey sl "expanded" then
              searchSitelinkLines true (jsonElems (Json.getD sl "expanded" .null))
            else [])
      else [])
  ++ [""]

/-- The sections of `format_search_results` after the `error` short-circuit
(lines 538-641). -/
def format_search_results_rest (response : SearchResponseData)
    (searchInfo : List String) : String :=
  let organic : List String :=
    if !response.organic_results.isEmpty then
      ["# Organic Results (" ++ toString response.organic_results.length ++ ")"]
      ++ (enumFrom 0 response.organic_results).flatMap
          (fun p => searchOrganicResultLines p.1 p.2)
    else []
  let knowledge : List String :=
    if optDictTruthy response.knowledge_graph then
      let kg := response.knowledge_graph.getD []
      ["# Knowledge Graph"]
      ++ (if Json.hasKey kg "title" then
            ["## " ++ pyStr (Json.getD kg "title" .null)] else [])
      ++ (if Json.hasKey kg "type" then
            ["Type: " ++ pyStr (Json.getD kg "type" .null)] else [])
      ++ (if Json.hasKey kg "description" then
            ["\n" ++ pyStr (Json.getD kg "description" .null)] else [])
      ++ (if Json.hasKey kg "attributes" then
            ["\n## Attributes"]
            ++ (jsonItems (Json.getD kg "attributes" .null)).map
                (fun a => "- **" ++ a.1 ++ "**: " ++ pyStr a.2)
          else [])
      ++ [""]
    else []
  let answerBox : List String :=
    if optDictTruthy response.answer_box then
      let ab := response.answer_box.getD []
      ["# Answer Box"]
      ++ (if Json.hasKey ab "title" then
            ["## " ++ pyStr (Json.getD ab "title" .null)] else [])
      ++ (if Json.hasKey ab "answer" then
            [pyStr (Json.getD ab "answer" .null)]
          else if Json.hasKey ab "snippet" then
            [pyStr (Json.getD ab "snippet" .null)]
          else [])
      ++ (if Json.hasKey ab "source" then
            ["\nSource: [" ++ pyStr (Json.getD ab "source" .null) ++ "]("
              ++ pyStr (Json.getD ab "link" (.str "#")) ++ ")"]
          else [])
      ++ [""]
    else []
  let relatedQuestions : List String :=
    if optListTruthy response.related_questions then
      ["# People Also Ask"]
      ++ (enumFrom 0 (response.related_questions.getD [])).flatMap (fun p =>
          let question := p.2
          ["## " ++ pyStr (Json.getD question "question"
              (.str ("Question " ++ toString (p.1 + 1))))]
          ++ (if Json.hasKey question "snippet" then
                [pyStr (Json.getD question "snippet" .null)] else [])
          ++ (if Json.hasKey question "source" then
                ["\nSource: [" ++ pyStr (Json.getD question "source" .null) ++ "]("
                  ++ pyStr (Json.getD question "link" (.str "#")) ++ ")"]
              else [])
          ++ [""])
    else []
  let topStories : List String :=
    if optListTruthy response.top_stories then
      ["# Top Stories (" ++ toString (response.top_stories.getD []).length ++ ")"]
      ++ (enumFrom 0 (response.top_stories.getD [])).flatMap (fun p =>
          let story := p.2
          ["## " ++ toString (p.1 + 1) ++ ". "
            ++ pyStr (Json.getD story "title" (.str ("Story " ++ toString (p.1 + 1))))]
          ++ (if Json.hasKey story "link" then
                ["Link: " ++ pyStr (Json.getD story "link" .null)] else [])
          ++ (if Json.hasKey story "source" then
                ["Source: " ++ pyStr (Json.getD story "source" .null)] else [])
          ++ (if Json.hasKey story "date" then
                ["Date: " ++ pyStr (Json.getD story "date" .null)] else [])
          ++ (if Json.hasKey story "snippet" then
                ["\n" ++ pyStr (Json.getD story "snippet" .null)] else [])
          ++ [""])
    else []
  let relatedSearches : List String :=
    if optListTruthy response.related_searches then
      ["# Related Searches"]
      ++ (response.related_searches.getD []).map (fun search =>
          "- [" ++ pyStr (Json.getD search "query" (.str "")) ++ "]("
            ++ pyStr (Json.getD search "link" (.str "#")) ++ ")")
      ++ [""]
    else []
  let pagination : List String :=
    if optDictTruthy response.pagination then
      let pg := response.pagination.getD []
      ["# Pagination"]
      ++ (if Json.hasKey pg "current" then
            ["Current Page: " ++ pyStr (Json.getD pg "current" .null)] else [])
      ++ (if Json.hasKey pg "next" then
            ["Next Page: " ++ pyStr (Json.getD pg "next" .null)] else [])
      ++ (if Json.hasKey pg "other_pages" then
            ["Other Pages: "
              ++ pyJoin ", " (jsonIterStrs (Json.getD pg "other_pages" .null))]
          else [])
      ++ [""]
    else []
  pyJoin "\n" (searchInfo ++ organic ++ knowledge ++ answerBox
    ++ relatedQuestions ++ topStories ++ relatedSearches ++ pagination)

/-- Embeds `SerpApiServer.format_search_results`
(src/serpapi_google_search.py lines 518-641): the list of markdown lines is
built section by section — Search Information first, then the `error`
short-circuit, then Organic Results, Knowledge Graph, Answer Box, People
Also Ask, Top Stories, Related Searches, Pagination — and joined with
newlines. -/
def format_search_results (response : SearchResponseData) : String :=
  let searchInfo : List String :=
    if optDictTruthy response.search_information then
      let si := response.search_information.getD []
      ["# Search Information"]
      ++ (if Json.hasKey si "total_results" then
            ["Total Results: " ++ pyStr (Json.getD si "total_results" .null)]
          else [])
      ++ (if Json.hasKey si "time_taken_displayed" then
            ["Time Taken: " ++ pyStr (Json.getD si "time_taken_displayed" .null)]
          else [])
      ++ [""]
    else []
  match response.error with
  | some e =>
    if e ≠ "" then
      pyJoin "\n" (searchInfo ++ ["# Error", e, ""])
    else format_search_results_rest response searchInfo
  | none => format_search_results_rest response searchInfo


/-- Python `v == "some string"` on a JSON value: true only for that exact
string. -/
def jsonStrEq (j : Json) (s : String) : Bool :=
  match j with
  | .str t => t = s
  | _ => false

/-- The characters the finance source file holds where the original price
up-arrow emoji was mis-encoded (bytes U+00F0 U+0178 U+201C U+02C6 in
src/serpapi_google_finance.py line 284). -/
def financeUpMark : String :=
  String.mk [Char.ofNat 240, Char.ofNat 376, Char.ofNat 8220, Char.ofNat 710]

/-- The corresponding mis-encoded down-arrow marker (U+00F0 U+0178 U+201C
U+2030). -/
def financeDownMark : String :=
  String.mk [Char.ofNat 240, Char.ofNat 376, Char.ofNat 8220, Char.ofNat 8240]

/-- One market stock's lines inside the markets loop of
`format_google_finance_results` (src/serpapi_google_finance.py lines
316-330); `stock.name` interpolates `None` when absent, and
`if stock.price_movement:` is truthy for any present submodel. -/
def financeMarketStockLines (stock : StockInfo) : List String :=
  ["## " ++ pyStrOpt stock.name]
  ++ (match stock.price with
      | some p => ["**Price:** " ++ toString p]
      | none => [])
  ++ (match stock.price_movement with
      | some movement =>
        ["**Change:** "
          ++ (if movement.movement = some "Up" then financeUpMark else financeDownMark)
          ++ " " ++ pyStrOptInt movement.value
          ++ " (" ++ pyStrOptInt movement.percentage ++ "%)"]
      | none => [])
  ++ (match stock.link with
      | some l => if l ≠ "" then ["**Link:** " ++ l] else []
      | none => [])
  ++ [""]

/-- The sections of `format_google_finance_results` after the `error`
short-circuit (lines 273-369). -/
def format_google_finance_results_rest (response : GoogleFinanceResponseData) :
    String :=
  let stockInfo : List String :=
    if optDictTruthy response.stock_info then
      let stock := response.stock_info.getD []
      ["# " ++ pyStr (Json.getD stock "title" (.str "Stock Information")), ""]
      ++ (if Json.hasKey stock "price" then
            ["**Current Price:** " ++ pyStr (Json.getD stock "price" .null)]
          else [])
      ++ (if Json.hasKey stock "price_movement" then
            let movement := Json.getD stock "price_movement" .null
            ["**Change:** "
              ++ (if jsonStrEq (jsonDictGetD movement "movement" .null) "Up"
                  then financeUpMark else financeDownMark)
              ++ " " ++ pyStr (jsonDictGetD movement "value" (.str ""))
              ++ " (" ++ pyStr (jsonDictGetD movement "percentage" (.str "")) ++ "%)"]
          else [])
      ++ (if Json.hasKey stock "exchange" then
            ["**Exchange:** " ++ pyStr (Json.getD stock "exchange" .null)]
          else [])
      ++ (if Json.hasKey stock "currency" then
            ["**Currency:** " ++ pyStr (Json.getD stock "currency" .null)]
          else [])
      ++ [""]
    else []
  let graph : List String :=
    if optDictTruthy response.graph then
      let g := response.graph.getD []
      ["# Graph Information", ""]
      ++ (if Json.hasKey g "time_window" then
            ["**Time Window:** " ++ pyStr (Json.getD g "time_window" .null)]
          else [])
      ++ (if Json.hasKey g "time_window_buttons" then
            ["**Available Time Windows:** "
              ++ pyJoin ", " (jsonIterStrs (Json.getD g "time_window_buttons" .null))]
          else [])
      ++ [""]
    else []
  let markets : List String :=
    if optListTruthy response.markets then
      (response.markets.getD []).flatMap (fun market =>
        ["# " ++ pyCapitalize market.1 ++ " Market", ""]
        ++ market.2.flatMap financeMarketStockLines)
    else []
  let news : List String :=
    if optListTruthy response.news_results then
      ["# News (" ++ toString (response.news_results.getD []).length ++ ")", ""]
      ++ (enumFrom 0 (response.news_results.getD [])).flatMap (fun p =>
          let news := p.2
          [(if Json.hasKey news "title" then
              "## " ++ toString (p.1 + 1) ++ ". " ++ pyStr (Json.getD news "title" .null)
            else "## " ++ toString (p.1 + 1) ++ ". [No title available]")]
          ++ (if Json.hasKey news "date" then
                ["**Date:** " ++ pyStr (Json.getD news "date" .null)] else [])
          ++ (if Json.hasKey news "source" then
                ["**Source:** " ++ pyStr (Json.getD news "source" .null)] else [])
          ++ (if Json.hasKey news "snippet" then
                ["\n" ++ pyStr (Json.getD news "snippet" .null)] else [])
          ++ (if Json.hasKey news "link" then
                ["\n**Link:** " ++ pyStr (Json.getD news "link" .null)] else [])
          ++ [""])
    else []
  let pasf : List String :=
    if optListTruthy response.people_also_search_for then
      ["# People Also Search For", ""]
      ++ (response.people_also_search_for.getD []).flatMap (fun item =>
          if Json.hasKey item "title" then
            ["- " ++ pyStr (Json.getD item "title" .null)]
            ++ (if Json.hasKey item "link" then
                  ["  **Link:** " ++ pyStr (Json.getD item "link" .null)] else [])
            ++ [""]
          else [])
    else []
  pyJoin "\n" (stockInfo ++ graph ++ markets ++ news ++ pasf)

/-- Embeds `SerpApiGoogleFinanceServer.format_google_finance_results`
(src/serpapi_google_finance.py lines 262-369): the `error` check comes
first and short-circuits to a single Error section; otherwise the stock
info, graph, markets, news and people-also-search-for sections are emitted
and the lines joined with newlines. -/
def format_google_finance_results (response : GoogleFinanceResponseData) : String :=
  match response.error with
  | some e =>
    if e ≠ "" then pyJoin "\n" ["# Error", e, ""]
    else format_google_finance_results_rest response
  | none => format_google_finance_results_rest response

/-- One organic result's parts inside the results loop of
`format_google_scholar_results` (src/serpapi_google_scholar.py lines
402-445); the parts carry their own newlines and are joined with `""`. -/
def scholarResultParts (i : Nat) (result : GoogleScholarResult) : List String :=
  ["### " ++ toString (i + 1) ++ ". " ++ result.title ++ "\n"]
  ++ (match result.snippet with
      | some s => if s ≠ "" then [s ++ "\n"] else []
      | none => [])
  ++ (if optDictTruthy result.publication_info then
        let pi := result.publication_info.getD []
        let pub_info : List String :=
          (if Json.hasKey pi "summary" then
             ["**Publication:** " ++ pyStr (Json.getD pi "summary" .null)]
           else [])
          ++ (if Json.hasKey pi "authors" then
                ["**Authors:** "
                  ++ pyJoin ", " ((jsonElems (Json.getD pi "authors" .null)).map
                      (fun a => pyStr (jsonDictGetD a "name" (.str ""))))]
              else [])
        [pyJoin " | " pub_info ++ "\n"]
      else [])
  ++ (if optListTruthy result.authors then
        let authors := pyJoin ", "
          ((result.authors.getD []).filterMap (fun a =>
            match a.name with
            | some n => if n ≠ "" then some n else none
            | none => none))
        if authors ≠ "" then ["**Authors:** " ++ authors ++ "\n"] else []
      else [])
  ++ (match result.year with
      | some y => if y ≠ "" then ["**Year:** " ++ y ++ "\n"] else []
      | none => [])
  ++ (match result.journal with
      | some j => if j ≠ "" then ["**Journal:** " ++ j ++ "\n"] else []
      | none => [])
  ++ (if optDictTruthy result.cited_by then
        let cb := result.cited_by.getD []
        let cited_by := Json.getD cb "value" (.str "")
        let cited_by_link := Json.getD cb "link" (.str "")
        if cited_by.pyTruthy then
          ["**Cited by:** [" ++ pyStr cited_by ++ "](" ++ pyStr cited_by_link ++ ")\n"]
        else []
      else [])
  ++ (match result.link with
      | some l => if l ≠ "" then ["**Link:** [" ++ l ++ "](" ++ l ++ ")\n"] else []
      | none => [])
  ++ (if optListTruthy result.resources then
        ["**Resources:**\n"]
        ++ (result.resources.getD []).filterMap (fun resource =>
            let title := Json.getD resource "title" (.str "")
            let link := Json.getD resource "link" (.str "")
            if title.pyTruthy && link.pyTruthy then
              some ("- [" ++ pyStr title ++ "](" ++ pyStr link ++ ")\n")
            else none)
      else [])
  ++ ["\n---\n"]

/-- Embeds `SerpApiGoogleScholarServer.format_google_scholar_results`
(src/serpapi_google_scholar.py lines 367-477): a fixed header, search
information, a Search Parameters section (skipping `engine` and `api_key`),
the results loop, related searches and pagination; the parts are joined with
the empty string.  Note there is no `error` short-circuit in this
renderer. -/
def format_google_scholar_results (response : GoogleScholarResponseData) : String :=
  let header : List String := ["# Google Scholar Search Results\n"]
  let searchInfo : List String :=
    if optDictTruthy response.search_information then
      let si := response.search_information.getD []
      let total_results := Json.getD si "total_results" .null
      let time_taken := Json.getD si "time_taken_displayed" .null
      (if total_results.pyTruthy then
         ["**Total Results:** " ++ pyStr total_results ++ "\n"] else [])
      ++ (if time_taken.pyTruthy then
            ["**Time Taken:** " ++ pyStr time_taken ++ "\n"] else [])
    else []
  let searchParams : List String :=
    ["\n## Search Parameters\n"]
    ++ response.search_parameters.filterMap (fun p =>
        if p.1 ≠ "engine" ∧ p.1 ≠ "api_key" then
          some ("**" ++ p.1 ++ ":** " ++ pyStr p.2 ++ "\n")
        else none)
  let organic : List String :=
    if optListTruthy response.organic_results then
      ["\n## Results\n"]
      ++ (enumFrom 0 (response.organic_results.getD [])).flatMap
          (fun p => scholarResultParts p.1 p.2)
    else []
  let relatedSearches : List String :=
    if optListTruthy response.related_searches then
      ["\n## Related Searches\n"]
      ++ (response.related_searches.getD []).filterMap (fun search =>
          let query := Json.getD search "query" (.str "")
          let link := Json.getD search "link" (.str "")
          if query.pyTruthy then
            if link.pyTruthy then
              some ("- [" ++ pyStr query ++ "](" ++ pyStr link ++ ")\n")
            else some ("- " ++ pyStr query ++ "\n")
          else none)
    else []
  let pagination : List String :=
    if optDictTruthy response.pagination then
      let pg := response.pagination.getD []
      let current := Json.getD pg "current" (.str "")
      let next_page := Json.getD pg "next" (.str "")
      let other_pages := Json.getD pg "other_pages" (.obj [])
      ["\n## Pagination\n"]
      ++ (if current.pyTruthy then
            ["**Current Page:** " ++ pyStr current ++ "\n"] else [])
      ++ (if next_page.pyTruthy then
            ["**Next Page:** " ++ pyStr next_page ++ "\n"] else [])
      ++ (if other_pages.pyTruthy then
            ["**Other Pages:**\n"]
            ++ (jsonItems other_pages).map (fun p =>
                "- Page " ++ p.1 ++ ": " ++ pyStr p.2 ++ "\n")
          else [])
    else []
  String.join (header ++ searchInfo ++ searchParams ++ organic
    ++ relatedSearches ++ pagination)

/-! ## Adapter orchestration

The upstream HTTP call is modelled as an oracle argument describing what the
single `session.get` of the invocation did.  A raised Python exception
leaving the adapter method is modelled as a `fault` outcome; an ordinary
return is `payload`.  Each outcome carries the cache state after the call
and whether the upstream client was consulted. -/

/-- What the one upstream HTTP request of an invocation did. -/
inductive UpstreamResult where
  | ok (body : Json)
  | httpError (status : Int) (text : String)
  | timeout (msg : String)
  | clientError (msg : String)
  | jsonError (msg : String)
  | exn (msg : String)
deriving Repr, Inhabited

/-- `mcp.types.INTERNAL_ERROR`. -/
def INTERNAL_ERROR : Int := -32603

/-- `mcp.types.METHOD_NOT_FOUND`. -/
def METHOD_NOT_FOUND : Int := -32601

/-- `mcp.types.INVALID_PARAMS`. -/
def INVALID_PARAMS : Int := -32602

/-- An exception crossing the adapter-method boundary: a raised `McpError`,
a raised `AttributeError` on a missing pydantic attribute, or an uncaught
library exception. -/
inductive Fault where
  | mcpError (code : Int) (message : String)
  | attributeError (attr : String)
  | uncaught (message : String)
deriving Repr, Inhabited

/-- Outcome of one adapter invocation: a returned payload or a raised fault,
together with the cache afterwards and whether the upstream client was
consulted. -/
inductive StepResult where
  | payload (p : Payload) (cache : Cache) (calledUpstream : Bool)
  | fault (f : Fault) (cache : Cache) (calledUpstream : Bool)
deriving Repr, Inhabited

/-- The upstream `params` dict of `google_finance_search`
(src/serpapi_google_finance.py lines 148-158): engine, the secret key, `q`,
and truthiness-guarded `hl` / `window`. -/
def finance_build_params (api_key : String) (args : GoogleFinanceSearchArgs) :
    List (String × Json) :=
  [("engine", .str "google_finance"), ("api_key", .str api_key),
   ("q", .str args.q)]
    ++ (match args.hl with
        | some s => if s = "" then [] else [("hl", .str s)]
        | none => [])
    ++ (match args.window with
        | some s => if s = "" then [] else [("window", .str s)]
        | none => [])

/-- The synthesized `error_response` dict used by every failure branch of
`google_finance_search` (e.g. lines 170-174): a minimal metadata echo, the
upstream params (secret key included), and the error message. -/
def finance_error_response (params : List (String × Json)) (msg : String) : Json :=
  .obj [("search_metadata", .obj [("status", .str "Error")]),
        ("search_parameters", .obj params),
        ("error", .str msg)]

/-- The per-mode formatting of an `error_response` repeated in the three
failure branches of `google_finance_search` (lines 176-185, 224-233,
247-256).  A coercion failure while formatting the synthesized error would
propagate out of the `except` clause; it is surfaced as `.error` here and
proved impossible below. -/
def finance_format_error (args : GoogleFinanceSearchArgs)
    (params : List (String × Json)) (msg : String) : Except String Payload :=
  let er := finance_error_response params msg
  if args.raw_json then .ok (.json er)
  else if args.readable_json then
    (parseGoogleFinanceResponseData er).map
      (fun m => .text (format_google_finance_results m))
  else .ok (.json (clean_json_dict_maps er))

/-- Shared tail of the failure branches: format the synthesized error, cache
it under the request key with a fresh timestamp, and return it as an
ordinary payload. -/
def finance_error_step (args : GoogleFinanceSearchArgs) (cache : Cache)
    (now : Int) (cache_key : String) (params : List (String × Json))
    (msg : String) : StepResult :=
  match finance_format_error args params msg with
  | .ok p => .payload p (cachePut cache cache_key ⟨p, now⟩) true
  | .error e => .fault (.uncaught e) cache true

/-- Embeds `SerpApiGoogleFinanceServer.google_finance_search`
(src/serpapi_google_finance.py lines 119-260): cache key, TTL-checked
lookup, upstream call, per-mode formatting (readable-mode coercion failures
fall into the generic `except Exception` branch), caching of both success
and synthesized-error responses. -/
def SerpApiGoogleFinanceServer.google_finance_search
    (server : SerpApiGoogleFinanceServer) (args : GoogleFinanceSearchArgs)
    (cache : Cache) (now : Int) (upstream : UpstreamResult) : StepResult :=
  let cache_key := server.finance_cache_key args
  match ttl_cache_get cache cache_key now with
  | some p => .payload p cache false
  | none =>
    let params := finance_build_params server.api_key args
    match upstream with
    | .ok raw_data =>
      if args.raw_json then
        .payload (.json raw_data) (cachePut cache cache_key ⟨.json raw_data, now⟩) true
      else if args.readable_json then
        match parseGoogleFinanceResponseData raw_data with
        | .ok m =>
          let p := Payload.text (format_google_finance_results m)
          .payload p (cachePut cache cache_key ⟨p, now⟩) true
        | .error em =>
          finance_error_step args cache now cache_key params
            ("An error occurred: " ++ em)
      else
        let p := Payload.json (clean_json_dict_maps raw_data)
        .payload p (cachePut cache cache_key ⟨p, now⟩) true
    | .httpError status text =>
      finance_error_step args cache now cache_key params
        ("SerpAPI returned status code " ++ toString status ++ ": " ++ text)
    | .timeout _ =>
      finance_error_step args cache now cache_key params
        "SerpAPI request timed out"
    | .clientError m =>
      finance_error_step args cache now cache_key params ("An error occurred: " ++ m)
    | .jsonError m =>
      finance_error_step args cache now cache_key params ("An error occurred: " ++ m)
    | .exn m =>
      finance_error_step args cache now cache_key params ("An error occurred: " ++ m)

/-- Python `"error" in json_response` on a decoded body: key membership for
a dict, element membership for a list (Python's substring membership on a
string body is not modelled; no theorem exercises a non-dict body). -/
def bodyHasErrorKey : Json → Bool
  | .obj ms => Json.hasKey ms "error"
  | .arr es => es.any (fun v => jsonStrEq v "error")
  | _ => false

/-- The `json_response["error"]` read of a body that passed
`bodyHasErrorKey` (dict case; `.null` otherwise). -/
def bodyErrorValue : Json → Json
  | .obj ms => Json.getD ms "error" .null
  | _ => .null

/-- Embeds `SerpApiServer.search` (src/serpapi_google_search.py lines
284-407): params and cache key (the key embeds `self.api_key`), a
membership-only cache lookup with no TTL comparison, then the upstream
call.  Failures raise `McpError`; since `McpError` is an `Exception`, the
inner raises of lines 351 and 362 are caught by the generic
`except Exception` clause of line 402 and re-wrapped, so every failure
leaves as `Unexpected error during SerpAPI request: ...` except the
dedicated `aiohttp.ClientError` / `JSONDecodeError` clauses.  Nothing is
cached on any failure path.  A readable-mode coercion failure falls back to
caching and returning the raw body (lines 379-383). -/
def SerpApiServer.search (server : SerpApiServer) (args : GoogleSearchArgs)
    (cache : Cache) (now : Int) (upstream : UpstreamResult) : StepResult :=
  let cache_key := server.search_cache_key args
  match search_cache_lookup cache cache_key with
  | some p => .payload p cache false
  | none =>
    match upstream with
    | .ok json_response =>
      if bodyHasErrorKey json_response then
        .fault (.mcpError INTERNAL_ERROR
          ("Unexpected error during SerpAPI request: SerpAPI returned an error: "
            ++ pyStr (bodyErrorValue json_response))) cache true
      else if args.raw_json then
        .payload (.json json_response)
          (cachePut cache cache_key ⟨.json json_response, now⟩) true
      else if args.readable_json then
        match parseSearchResponseData json_response with
        | .ok rd =>
          let p := Payload.text (format_search_results rd)
          .payload p (cachePut cache cache_key ⟨p, now⟩) true
        | .error _ =>
          .payload (.json json_response)
            (cachePut cache cache_key ⟨.json json_response, now⟩) true
      else
        let p := Payload.json (clean_json_dict json_response)
        .payload p (cachePut cache cache_key ⟨p, now⟩) true
    | .httpError status text =>
      .fault (.mcpError INTERNAL_ERROR
        ("Unexpected error during SerpAPI request: SerpAPI returned an error: "
          ++ toString status ++ " - " ++ text)) cache true
    | .clientError m =>
      .fault (.mcpError INTERNAL_ERROR
        ("HTTP error during SerpAPI request: " ++ m)) cache true
    | .jsonError m =>
      .fault (.mcpError INTERNAL_ERROR
        ("Error decoding JSON from SerpAPI: " ++ m)) cache true
    | .timeout m =>
      .fault (.mcpError INTERNAL_ERROR
        ("Unexpected error during SerpAPI request: " ++ m)) cache true
    | .exn m =>
      .fault (.mcpError INTERNAL_ERROR
        ("Unexpected error during SerpAPI request: " ++ m)) cache true

/-- Embeds `SerpApiGoogleScholarServer.google_scholar_search`
(src/serpapi_google_scholar.py lines 237-365).  The cache key carries no
mode tag; on a hit the stored payload is converted to the requested mode
(lines 282-307) — in readable mode a stored dict is re-coerced *outside*
any `try`, so a coercion failure there propagates uncaught.  On a miss,
failures raise `McpError` (re-wrapped by the generic `except Exception`
clause as in the search adapter) and nothing is cached; a readable-mode
coercion failure on the success path is caught by the same generic clause
and also leaves as a raised `McpError`. -/
def SerpApiGoogleScholarServer.google_scholar_search
    (server : SerpApiGoogleScholarServer) (args : GoogleScholarArgs)
    (cache : Cache) (now : Int) (upstream : UpstreamResult) : StepResult :=
  let cache_key := server.scholar_cache_key args
  match cacheFind cache cache_key with
  | some cached =>
    let cr := cached.response
    if args.raw_json then
      .payload cr cache false
    else if args.readable_json then
      match cr with
      | .text s => .payload (.text s) cache false
      | .json j =>
        match parseGoogleScholarResponseData j with
        | .ok m => .payload (.text (format_google_scholar_results m)) cache false
        | .error em => .fault (.uncaught em) cache false
    else
      match cr with
      | .json j => .payload (.json (clean_json_dict_scholar j)) cache false
      | .text s => .payload (.text s) cache false
  | none =>
    match upstream with
    | .ok json_response =>
      if bodyHasErrorKey json_response then
        .fault (.mcpError INTERNAL_ERROR
          ("Unexpected error during SerpAPI request: SerpAPI returned an error: "
            ++ pyStr (bodyErrorValue json_response))) cache true
      else if args.raw_json then
        .payload (.json json_response)
          (cachePut cache cache_key ⟨.json json_response, now⟩) true
      else if args.readable_json then
        match parseGoogleScholarResponseData json_response with
        | .ok rd =>
          let p := Payload.text (format_google_scholar_results rd)
          .payload p (cachePut cache cache_key ⟨p, now⟩) true
        | .error em =>
          .fault (.mcpError INTERNAL_ERROR
            ("Unexpected error during SerpAPI request: " ++ em)) cache true
      else
        let p := Payload.json (clean_json_dict_scholar json_response)
        .payload p (cachePut cache cache_key ⟨p, now⟩) true
    | .httpError status text =>
      .fault (.mcpError INTERNAL_ERROR
        ("Unexpected error during SerpAPI request: SerpAPI returned an error: "
          ++ toString status ++ " - " ++ text)) cache true
    | .clientError m =>
      .fault (.mcpError INTERNAL_ERROR
        ("HTTP error during SerpAPI request: " ++ m)) cache true
    | .jsonError m =>
      .fault (.mcpError INTERNAL_ERROR
        ("Error decoding JSON from SerpAPI: " ++ m)) cache true
    | .timeout m =>
      .fault (.mcpError INTERNAL_ERROR
        ("Unexpected error during SerpAPI request: " ++ m)) cache true
    | .exn m =>
      .fault (.mcpError INTERNAL_ERROR
        ("Unexpected error during SerpAPI request: " ++ m)) cache true

/-! ## YouTube transcript server -/

/-- Split a character list at the first occurrence of a character. -/
def splitFirstChar (c : Char) : List Char → (List Char × Option (List Char))
  | [] => ([], none)
  | x :: rest =>
    if x = c then ([], some rest)
    else
      match splitFirstChar c rest with
      | (before, after) => (x :: before, after)

/-- A valid URL scheme per `urllib.parse`: a letter followed by letters,
digits, `+`, `-` or `.`. -/
def isValidScheme : List Char → Bool
  | [] => false
  | c :: rest => c.isAlpha && rest.all (fun d => d.isAlphanum || d = '+' || d = '-' || d = '.')

/-- The slice of `urllib.parse.urlparse` the transcript server reads:
hostname, path and query.  The model covers absolute URLs
(`scheme://netloc/path?query`) and scheme-less strings (everything lands in
`path`); fragments, userinfo, ports and percent-decoding are not modelled —
no claim input uses them. -/
structure ParsedUrl where
  hostname : Option String
  path : String
  query : String
deriving Repr, Inhabited

/-- Model of `urlparse` restricted to the fields the transcript server
uses. -/
def urlparse (url : String) : ParsedUrl :=
  let cs := url.toList
  let afterScheme :=
    match splitFirstChar ':' cs with
    | (before, some after) => if isValidScheme before then after else cs
    | (_, none) => cs
  match afterScheme with
  | '/' :: '/' :: rest =>
    let netloc := rest.takeWhile (fun c => c ≠ '/' && c ≠ '?' && c ≠ '#')
    let tail := rest.drop netloc.length
    let pathChars := tail.takeWhile (fun c => c ≠ '?' && c ≠ '#')
    let queryChars :=
      match splitFirstChar '?' tail with
      | (_, some q) => q.takeWhile (fun c => c ≠ '#')
      | (_, none) => []
    { hostname := if netloc.isEmpty then none
        else some (String.mk (netloc.map Char.toLower)),
      path := String.mk pathChars,
      query := String.mk queryChars }
  | other =>
    let pathChars := other.takeWhile (fun c => c ≠ '?' && c ≠ '#')
    let queryChars :=
      match splitFirstChar '?' other with
      | (_, some q) => q.takeWhile (fun c => c ≠ '#')
      | (_, none) => []
    { hostname := none, path := String.mk pathChars, query := String.mk queryChars }

/-- Split a character list on every occurrence of a character, as Python
`s.split(c)` does (an empty input yields one empty field). -/
def splitAllChar (c : Char) : List Char → List (List Char)
  | [] => [[]]
  | x :: rest =>
    if x = c then [] :: splitAllChar c rest
    else
      match splitAllChar c rest with
      | [] => [[x]]
      | f :: fs => (x :: f) :: fs

/-- The first value `parse_qs` collects for a key:
`parse_qs(query)[key][0]`, `none` when the key is absent (Python raises
`KeyError` then).  Blank values are skipped as with the default
`keep_blank_values=False`; percent-decoding is not modelled. -/
def parse_qs_first (query : String) (key : String) : Option String :=
  let fields := splitAllChar '&' query.toList
  let pairs := fields.filterMap (fun f =>
    match splitFirstChar '=' f with
    | (name, some value) =>
      if value.isEmpty then none else some (String.mk name, String.mk value)
    | (_, none) => none)
  (pairs.find? (fun p => p.1 = key)).map (fun p => p.2)

/-- A Python exception raised during video-ID extraction: the explicit
`ValueError` of line 140 or the `KeyError` from `parse_qs(...)['v']`. -/
inductive ExtractError where
  | valueError (msg : String)
  | keyError (key : String)
deriving Repr, Inhabited

/-- What `get_transcript` interpolates for a caught extraction error:
`str(e)` of a `ValueError` is its message, of a `KeyError` the repr of the
key. -/
def ExtractError.pyMessage : ExtractError → String
  | .valueError msg => msg
  | .keyError k => pySQuote k

/-- Boolean prefix test on character lists. -/
def listPrefixEq : List Char → List Char → Bool
  | [], _ => true
  | _ :: _, [] => false
  | c :: cs, d :: ds => c = d && listPrefixEq cs ds

/-- Python `s.startswith(p)`. -/
def pyStartsWith (s p : String) : Bool := listPrefixEq p.toList s.toList

/-- Embeds `YouTubeTranscriptServer.extract_video_id`
(src/youtube_transcript.py lines 122-140): bare IDs (length at most 11, no
slash or dot) pass through; `youtu.be` URLs use the path after `/`;
`youtube.com` URLs dispatch on `/watch` (query parameter `v`), `/v/`,
`/shorts/`, `/embed/`; everything else raises
`ValueError("Could not extract video ID from URL")`. -/
def extract_video_id (url : String) : Except ExtractError String :=
  if url.length ≤ 11 && !url.toList.contains '/' && !url.toList.contains '.' then
    .ok url
  else
    let parsed := urlparse url
    if parsed.hostname = some "youtu.be" ∨ parsed.hostname = some "www.youtu.be" then
      .ok (String.mk (parsed.path.toList.drop 1))
    else if parsed.hostname = some "youtube.com" ∨ parsed.hostname = some "www.youtube.com" then
      if parsed.path = "/watch" then
        match parse_qs_first parsed.query "v" with
        | some v => .ok v
        | none => .error (.keyError "v")
      else if pyStartsWith parsed.path "/v/" then
        .ok (String.mk (parsed.path.toList.drop 3))
      else if pyStartsWith parsed.path "/shorts/" then
        .ok (String.mk (parsed.path.toList.drop 8))
      else if pyStartsWith parsed.path "/embed/" then
        .ok (String.mk (parsed.path.toList.drop 7))
      else .error (.valueError "Could not extract video ID from URL")
    else .error (.valueError "Could not extract video ID from URL")

/-- Embeds `YouTubeTranscriptArgs` (src/youtube_transcript.py lines 34-97). -/
structure YouTubeTranscriptArgs where
  video_url : String
  with_timestamps : Bool := false
  language : String := "en"
  preserve_formatting : Bool := false
  cookies_path : Option String := none
  proxy : Option String := none
  raw_json : Bool := false
  readable_json : Bool := false
  text_transcript : Bool := false
deriving Repr, Inhabited

/-- One transcript segment as returned by the transcript library: a dict
with `text`, `start` and `duration`; the float times are modelled as `Int`
seconds. -/
structure TranscriptEntry where
  text : String
  start : Int
  duration : Int
deriving Repr, Inhabited

/-- The JSON form of a transcript segment list, as cached and returned by
the raw and clean modes. -/
def transcriptEntriesJson (data : List TranscriptEntry) : Json :=
  .arr (data.map (fun e =>
    .obj [("text", .str e.text), ("start", .num e.start),
          ("duration", .num e.duration)]))

/-- What the transcript-library interaction of one `get_transcript` call did
(lines 162-176): a fetched transcript, the for-else fallthrough when no
transcript exists at all, or one of the caught library exceptions. -/
inductive TranscriptFetchOutcome where
  | ok (data : List TranscriptEntry)
  | noneAvailable
  | transcriptsDisabled
  | videoUnavailable
  | noTranscriptRaised
  | exn (msg : String)
deriving Repr, Inhabited

/-- The transcript server's cache: `CachedTranscript` stores no timestamp,
so entries never expire (src/youtube_transcript.py lines 107-113, 152-154). -/
abbrev TranscriptCache := List (String × Payload)

/-- Lookup in the transcript cache (plain membership, no expiry). -/
def transcriptCacheFind : TranscriptCache → String → Option Payload
  | [], _ => none
  | (k, p) :: rest, key => if k = key then some p else transcriptCacheFind rest key

/-- Zero-padded two-digit rendering, as `f"{n:02d}"`. -/
def pad2 (n : Int) : String :=
  if 0 ≤ n ∧ n < 10 then "0" ++ toString n else toString n

/-- Embeds the inner `format_timestamp` of
`format_transcript_with_timestamps` (lines 220-226). -/
def format_timestamp (seconds : Int) : String :=
  let hours := seconds / 3600
  let minutes := (seconds % 3600) / 60
  let secs := seconds % 60
  if hours > 0 then
    "[" ++ toString hours ++ ":" ++ pad2 minutes ++ ":" ++ pad2 secs ++ "]"
  else
    "[" ++ toString minutes ++ ":" ++ pad2 secs ++ "]"

/-- Embeds `format_transcript_with_timestamps` (lines 218-228). -/
def format_transcript_with_timestamps (data : List TranscriptEntry) : String :=
  pyJoin "\n" (data.map (fun e => format_timestamp e.start ++ " " ++ e.text))

/-- Embeds `format_transcript_without_timestamps` (lines 230-232). -/
def format_transcript_without_timestamps (data : List TranscriptEntry) : String :=
  pyJoin "\n" (data.map (fun e => e.text))

/-- The cache key of `get_transcript` (line 149): video id, language and the
five boolean options, underscore-joined, with Python bool rendering. -/
def transcript_cache_key (video_id : String) (args : YouTubeTranscriptArgs) : String :=
  video_id ++ "_" ++ args.language ++ "_" ++ pyBoolStr args.with_timestamps
    ++ "_" ++ pyBoolStr args.preserve_formatting ++ "_" ++ pyBoolStr args.raw_json
    ++ "_" ++ pyBoolStr args.readable_json ++ "_" ++ pyBoolStr args.text_transcript

/-- Embeds `YouTubeTranscriptServer.get_transcript`
(src/youtube_transcript.py lines 142-216).  All exceptions are caught and
returned as strings: an extraction `ValueError` (or the `KeyError` from a
missing `v` parameter) yields `Error: ...`; the library failure modes yield
their dedicated messages; the no-transcript-at-all fallthrough returns a
plain (unprefixed, uncached) message.  The result carries the cache
afterwards and whether the transcript library was consulted. -/
def YouTubeTranscriptServer.get_transcript (args : YouTubeTranscriptArgs)
    (cache : TranscriptCache) (fetch : TranscriptFetchOutcome) :
    Payload × TranscriptCache × Bool :=
  match extract_video_id args.video_url with
  | .error e => (.text ("Error: " ++ e.pyMessage), cache, false)
  | .ok video_id =>
    let cache_key := transcript_cache_key video_id args
    match transcriptCacheFind cache cache_key with
    | some p => (p, cache, false)
    | none =>
      match fetch with
      | .ok data =>
        if args.raw_json then
          let p := Payload.json (transcriptEntriesJson data)
          (p, (cache_key, p) :: cache, true)
        else if args.readable_json then
          let formatted :=
            if args.with_timestamps then format_transcript_with_timestamps data
            else format_transcript_without_timestamps data
          let p := Payload.text formatted
          (p, (cache_key, p) :: cache, true)
        else if args.text_transcript then
          let p := Payload.text (pyJoin " " (data.map (fun e => e.text)))
          (p, (cache_key, p) :: cache, true)
        else
          let p := Payload.json (clean_json_dict_transcript (transcriptEntriesJson data))
          (p, (cache_key, p) :: cache, true)
      | .noneAvailable =>
        (.text ("No transcript found for video " ++ video_id), cache, true)
      | .transcriptsDisabled =>
        (.text "Error: Transcripts are disabled for this video", cache, true)
      | .videoUnavailable =>
        (.text ("Error: Video " ++ args.video_url ++ " is unavailable"), cache, true)
      | .noTranscriptRaised =>
        (.text ("Error: No transcript found for video " ++ args.video_url), cache, true)
      | .exn m => (.text ("Error: " ++ m), cache, true)

/-! ## The Google Search server's tool surface -/

/-- Repeated spaces, for `json.dumps(..., indent=2)`. -/
def spaces (n : Nat) : String := String.mk (List.replicate n ' ')

mutual

/-- `json.dumps(value, indent=2)` at a given current indentation: insertion
key order, `", "`-free item separators (an indented dump separates items
with a comma and a newline), `": "` between key and value. -/
def pyJsonDumpsIndentAt (ind : Nat) : Json → String
  | .null => "null"
  | .bool b => if b then "true" else "false"
  | .num n => toString n
  | .str s => jsonQuote s
  | .arr [] => "[]"
  | .arr (e :: es) =>
    "[\n" ++ spaces (ind + 2)
      ++ pyJoin (",\n" ++ spaces (ind + 2)) (pyJsonDumpsIndentElems (ind + 2) (e :: es))
      ++ "\n" ++ spaces ind ++ "]"
  | .obj [] => "\x7b\x7d"
  | .obj (m :: ms) =>
    "\x7b\n" ++ spaces (ind + 2)
      ++ pyJoin (",\n" ++ spaces (ind + 2)) (pyJsonDumpsIndentFields (ind + 2) (m :: ms))
      ++ "\n" ++ spaces ind ++ "\x7d"

/-- Rendered elements of an array for the indented dump. -/
def pyJsonDumpsIndentElems (ind : Nat) : List Json → List String
  | [] => []
  | e :: es => pyJsonDumpsIndentAt ind e :: pyJsonDumpsIndentElems ind es

/-- Rendered members of an object for the indented dump. -/
def pyJsonDumpsIndentFields (ind : Nat) : List (String × Json) → List String
  | [] => []
  | (k, v) :: ms =>
    (jsonQuote k ++ ": " ++ pyJsonDumpsIndentAt ind v) :: pyJsonDumpsIndentFields ind ms

end

/-- `json.dumps(response, indent=2)` as used by `call_tool`
(src/serpapi_google_search.py lines 878, 897, 910). -/
def pyJsonDumpsIndent2 (j : Json) : String := pyJsonDumpsIndentAt 0 j

/-- Embeds `SerpApiServer.format_locations_results`
(src/serpapi_google_search.py lines 643-655). -/
def format_locations_results (response : List Json) : String :=
  pyJoin "\n" (["Available Google Search Locations:"]
    ++ response.flatMap (fun location =>
      ["- " ++ pyStr (jsonDictGetD location "name" (.str "Unknown"))
        ++ " (" ++ pyStr (jsonDictGetD location "canonical_name" (.str "Unknown")) ++ ")"]
      ++ (match location with
          | .obj ms =>
            (if Json.hasKey ms "country_code" then
               ["  Country Code: " ++ pyStr (Json.getD ms "country_code" .null)]
             else [])
            ++ (if Json.hasKey ms "target_type" then
                  ["  Type: " ++ pyStr (Json.getD ms "target_type" .null)]
                else [])
          | _ => [])
      ++ [""]))

/-- Embeds `SerpApiServer.format_account_results`
(src/serpapi_google_search.py lines 657-674). -/
def format_account_results (response : List (String × Json)) : String :=
  pyJoin "\n" (["SerpAPI Account Information:"]
    ++ (if Json.hasKey response "account_id" then
          ["Account ID: " ++ pyStr (Json.getD response "account_id" .null)] else [])
    ++ (if Json.hasKey response "api_key" then
          ["API Key: " ++ pyStr (Json.getD response "api_key" .null)] else [])
    ++ (if Json.hasKey response "account_email" then
          ["Email: " ++ pyStr (Json.getD response "account_email" .null)] else [])
    ++ (if Json.hasKey response "plan_name" then
          ["Plan: " ++ pyStr (Json.getD response "plan_name" .null)] else [])
    ++ (if Json.hasKey response "searches_per_month" then
          ["Searches Per Month: " ++ pyStr (Json.getD response "searches_per_month" .null)]
        else [])
    ++ (if Json.hasKey response "plan_searches_left" then
          ["Searches Left: " ++ pyStr (Json.getD response "plan_searches_left" .null)]
        else []))

/-- Embeds `GoogleLocationsArgs` (src/serpapi_google_search.py lines
232-248): the only declared fields are `q` and `limit`. -/
structure GoogleLocationsArgs where
  q : Option String := none
  limit : Option Int := none
deriving Repr, Inhabited

/-- The attribute dict of a `GoogleLocationsArgs` instance: exactly the
declared pydantic fields.  In particular there is no `readable_json`
attribute. -/
def locationsArgsAttrs (args : GoogleLocationsArgs) : List (String × Json) :=
  [("q", match args.q with | some s => .str s | none => .null),
   ("limit", match args.limit with | some v => .num v | none => .null)]

/-- The attribute dict of a `GoogleAccountArgs` instance
(src/serpapi_google_search.py lines 250-252): the class declares no fields
at all. -/
def accountArgsAttrs : List (String × Json) := []

/-- Attribute access on a pydantic model instance: a missing attribute
raises `AttributeError`. -/
def pyGetAttr (attrs : List (String × Json)) (attr : String) : Except Fault Json :=
  match Json.lookupKey attrs attr with
  | some v => .ok v
  | none => .error (.attributeError attr)

/-- The tool names advertised by the Google Search server's `list_tools`
(src/serpapi_google_search.py lines 704-750). -/
def searchServerAdvertisedTools : List String :=
  ["google_search", "google_locations", "serpapi_account"]

/-- Result of one `call_tool` invocation: the returned text contents, or the
exception that left the handler, plus whether any upstream request was
issued. -/
inductive ToolCallResult where
  | content (texts : List String) (usedUpstream : Bool)
  | fault (f : Fault) (usedUpstream : Bool)
deriving Repr, Inhabited

/-- Embeds the `call_tool` handler of the Google Search server
(src/serpapi_google_search.py lines 865-916).  The dispatcher recognizes
`google_search`, `google_locations` and `google_account` — not the
advertised `serpapi_account` — and raises `McpError(METHOD_NOT_FOUND)`
otherwise.  The search branch renders the search outcome; the locations and
account branches first await their upstream call and then read
`args.readable_json`, an attribute neither args class declares.  The three
upstream interactions are supplied as oracles; the handler installs no
`try`, so every raised exception propagates. -/
def call_tool_search_server (name : String)
    (server : SerpApiServer) (searchArgs : GoogleSearchArgs)
    (locationsArgs : GoogleLocationsArgs)
    (cache : Cache) (now : Int) (searchUpstream : UpstreamResult)
    (locationsResult : Except Fault Json)
    (accountResult : Except Fault Json) : ToolCallResult :=
  if name = "google_search" then
    match server.search searchArgs cache now searchUpstream with
    | .payload (.json j) _ b => .content [pyJsonDumpsIndent2 j] b
    | .payload (.text s) _ b => .content [s] b
    | .fault f _ b => .fault f b
  else if name = "google_locations" then
    match locationsResult with
    | .error f => .fault f true
    | .ok response =>
      match pyGetAttr (locationsArgsAttrs locationsArgs) "readable_json" with
      | .error f => .fault f true
      | .ok v =>
        if v.pyTruthy then
          .content [format_locations_results (jsonElems response)] true
        else
          .content [pyJsonDumpsIndent2 response] true
  else if name = "google_account" then
    match accountResult with
    | .error f => .fault f true
    | .ok response =>
      match pyGetAttr accountArgsAttrs "readable_json" with
      | .error f => .fault f true
      | .ok v =>
        if v.pyTruthy then
          .content [format_account_results (jsonItems response)] true
        else
          .content [pyJsonDumpsIndent2 response] true
  else
    .fault (.mcpError METHOD_NOT_FOUND ("Unknown tool: " ++ name)) false

/-- The message the finance adapter's failure branches put into the
synthesized error response, per upstream failure kind
(src/serpapi_google_finance.py lines 166, 221, 244). -/
def finance_failure_message : UpstreamResult → Option String
  | .ok _ => none
  | .httpError status text =>
    some ("SerpAPI returned status code " ++ toString status ++ ": " ++ text)
  | .timeout _ => some "SerpAPI request timed out"
  | .clientError m => some ("An error occurred: " ++ m)
  | .jsonError m => some ("An error occurred: " ++ m)
  | .exn m => some ("An error occurred: " ++ m)

/-! ## Supporting lemmas -/

/-- Coercing the synthesized finance error response always succeeds and
recovers the metadata echo, the parameters, and the error message. -/
theorem finance_error_parse (params : List (String × Json)) (msg : String) :
    parseGoogleFinanceResponseData (finance_error_response params msg)
      = .ok { search_metadata := [("status", Json.str "Error")],
              search_parameters := params, error := some msg } := rfl

/-- Formatting a synthesized finance error response succeeds in every output
mode. -/
theorem finance_format_error_ok (args : GoogleFinanceSearchArgs)
    (params : List (String × Json)) (msg : String) :
    ∃ p, finance_format_error args params msg = .ok p := by
  by_cases hr : args.raw_json
  · exact ⟨Payload.json (finance_error_response params msg),
      by simp [finance_format_error, hr]⟩
  · by_cases hd : args.readable_json
    · exact ⟨Payload.text (format_google_finance_results
          { search_metadata := [("status", Json.str "Error")],
            search_parameters := params, error := some msg }),
        by simp [finance_format_error, hr, hd, finance_error_parse, Except.map]⟩
    · exact ⟨Payload.json (clean_json_dict_maps (finance_error_response params msg)),
        by simp [finance_format_error, hr, hd]⟩

/-- A `cachePut` entry is found under its key. -/
theorem cacheFind_cachePut_same (c : Cache) (k : String) (e : CacheEntry) :
    cacheFind (cachePut c k e) k = some e := by
  simp [cachePut, cacheFind]

/-- A freshly stored entry is returned by the TTL lookup while its age is
under the TTL. -/
theorem ttl_cache_get_put_fresh (c : Cache) (k : String) (e : CacheEntry)
    (now' : Int) (h : now' - e.timestamp < 3600) :
    ttl_cache_get (cachePut c k e) k now' = some e.response := by
  simp [ttl_cache_get, cacheFind_cachePut_same, h]

/-- Length of a join whose last part varies: the preceding parts and the
separators contribute a fixed amount. -/
theorem pyJoin_amp_snoc_length (base : List String) (t : String) :
    (pyJoin "&" (base ++ [t])).length
      = (base.foldr (fun s acc => s.length + 1 + acc) 0) + t.length := by
  induction base with
  | nil => simp [pyJoin]
  | cons s rest ih =>
    have hamp : "&".length = 1 := rfl
    cases rest with
    | nil => simp [pyJoin, String.length_append, hamp]
    | cons r rs =>
      have hstep : pyJoin "&" (s :: r :: (rs ++ [t]))
          = s ++ "&" ++ pyJoin "&" (r :: (rs ++ [t])) := rfl
      rw [List.cons_append, List.cons_append, hstep,
        String.length_append, String.length_append]
      rw [List.cons_append] at ih
      rw [ih]
      simp only [List.foldr_cons, hamp]
      omega

/-- Distinct mode tags have distinct lengths. -/
theorem financeFormatTag_length_ne (r1 d1 r2 d2 : Bool)
    (h : financeFormatTag r1 d1 ≠ financeFormatTag r2 d2) :
    (financeFormatTag r1 d1).length ≠ (financeFormatTag r2 d2).length := by
  revert h
  cases r1 <;> cases d1 <;> cases r2 <;> cases d2 <;> decide

/-- A join splits at a nonempty tail: the leading parts contribute either
nothing or their own join plus one separator. -/
theorem pyJoin_append_nonempty (sep : String) (xs : List String) (y : String)
    (ys : List String) :
    pyJoin sep (xs ++ y :: ys)
      = (match xs with | [] => "" | _ => pyJoin sep xs ++ sep)
          ++ pyJoin sep (y :: ys) := by
  induction xs with
  | nil => simp [pyJoin, String.empty_append]
  | cons x rest ih =>
    cases rest with
    | nil => simp [pyJoin, String.append_assoc]
    | cons r rs =>
      have hstep : pyJoin sep (x :: (r :: rs ++ y :: ys))
          = x ++ sep ++ pyJoin sep (r :: rs ++ y :: ys) := by
        rw [List.cons_append]
        rfl
      rw [List.cons_append, hstep, ih]
      simp [pyJoin, String.append_assoc]

/-- The three-line Error block joins to the expected string. -/
theorem pyJoin_error_lines (e : String) :
    pyJoin "\n" ["# Error", e, ""] = "# Error\n" ++ e ++ "\n" := by
  have h1 : "# Error" ++ "\n" = "# Error\n" := rfl
  simp [pyJoin, String.append_assoc, String.append_empty, h1]

/-! ## Claim theorems -/

/-- Claim C1, counterexample: `clean_json_dict` does not equal the reference
pruning of spec section 4.4.  On `{"a": {"b": null}}` the code keeps `"a"`
mapped to the emptied `{}` (the emptiness check runs on the original value,
before recursion), while the reference drops it; and on `{"a": [null]}` the
code maps `"a"` to `null` (an emptied list collapses to `None`), so the
output is not free of null values either. -/
theorem clean_json_dict_differs_from_spec_pruning :
    clean_json_dict (Json.obj [("a", Json.obj [("b", Json.null)])])
      ≠ spec_clean_ref (Json.obj [("a", Json.obj [("b", Json.null)])])
    ∧ clean_json_dict (Json.obj [("a", Json.arr [Json.null])])
      = Json.obj [("a", Json.null)] := by
  refine ⟨?_, rfl⟩
  intro h
  rw [show clean_json_dict (Json.obj [("a", Json.obj [("b", Json.null)])])
        = Json.obj [("a", Json.obj [])] from rfl,
      show spec_clean_ref (Json.obj [("a", Json.obj [("b", Json.null)])])
        = Json.obj [] from rfl] at h
  simp at h

/-- Claim C1, amended: both cited `clean_json_dict` variants test the
null/empty check on the *original* (pre-cleaning) value.  In both, a key
survives a map iff its original value is not `null`/`""`/`[]`/`{}`, and then
maps to the recursively cleaned value.  Lists differ per variant: the
search/trend/images variant keeps exactly the elements whose original value
passes the same test, and a list all of whose elements are dropped becomes
`null`; the maps/finance/news variant drops only `null` elements, and a list
of nothing but `null`s stays the empty list. -/
theorem clean_json_dict_original_value_characterization :
    (∀ (ms : List (String × Json)) (k : String) (w : Json),
        (k, w) ∈ clean_json_dict_fields ms ↔
          ∃ v, (k, v) ∈ ms ∧ v.isDropped = false ∧ w = clean_json_dict v)
    ∧ (∀ (es : List Json) (w : Json),
        w ∈ clean_json_dict_elems es ↔
          ∃ v, v ∈ es ∧ v.isDropped = false ∧ w = clean_json_dict v)
    ∧ (∀ es : List Json, clean_json_dict (Json.arr es) = Json.null ↔
        ∀ v ∈ es, v.isDropped = true)
    ∧ (∀ (ms : List (String × Json)) (k : String) (w : Json),
        (k, w) ∈ clean_json_dict_maps_fields ms ↔
          ∃ v, (k, v) ∈ ms ∧ v.isDropped = false ∧ w = clean_json_dict_maps v)
    ∧ (∀ (es : List Json) (w : Json),
        w ∈ clean_json_dict_maps_elems es ↔
          ∃ v, v ∈ es ∧ v ≠ Json.null ∧ w = clean_json_dict_maps v)
    ∧ (∀ es : List Json, (∀ v ∈ es, v = Json.null) →
        clean_json_dict_maps (Json.arr es) = Json.arr []) := by
  have hfields : ∀ (ms : List (String × Json)) (k : String) (w : Json),
      (k, w) ∈ clean_json_dict_fields ms ↔
        ∃ v, (k, v) ∈ ms ∧ v.isDropped = false ∧ w = clean_json_dict v := by
    intro ms
    induction ms with
    | nil => intro k w; simp [clean_json_dict_fields]
    | cons p rest ih =>
      intro k w
      rcases p with ⟨k', v'⟩
      by_cases hd : v'.isDropped
      · simp only [clean_json_dict_fields, if_pos hd, ih, List.mem_cons]
        constructor
        · rintro ⟨v, hv, hnd, hw⟩
          exact ⟨v, Or.inr hv, hnd, hw⟩
        · rintro ⟨v, hv, hnd, hw⟩
          rcases hv with heq | hv
          · rw [Prod.mk.injEq] at heq
            rw [heq.2] at hnd
            rw [hd] at hnd
            cases hnd
          · exact ⟨v, hv, hnd, hw⟩
      · simp only [clean_json_dict_fields, if_neg hd, List.mem_cons, ih]
        constructor
        · rintro (heq | ⟨v, hv, hnd, hw⟩)
          · rw [Prod.mk.injEq] at heq
            exact ⟨v', Or.inl (by rw [heq.1]), by simpa using hd, heq.2⟩
          · exact ⟨v, Or.inr hv, hnd, hw⟩
        · rintro ⟨v, hv, hnd, hw⟩
          rcases hv with heq | hv
          · rw [Prod.mk.injEq] at heq
            left
            rw [Prod.mk.injEq]
            exact ⟨heq.1, by rw [hw, heq.2]⟩
          · exact Or.inr ⟨v, hv, hnd, hw⟩
  have helems : ∀ (es : List Json) (w : Json),
      w ∈ clean_json_dict_elems es ↔
        ∃ v, v ∈ es ∧ v.isDropped = false ∧ w = clean_json_dict v := by
    intro es
    induction es with
    | nil => intro w; simp [clean_json_dict_elems]
    | cons v' rest ih =>
      intro w
      by_cases hd : v'.isDropped
      · simp only [clean_json_dict_elems, if_pos hd, ih, List.mem_cons]
        constructor
        · rintro ⟨v, hv, hnd, hw⟩
          exact ⟨v, Or.inr hv, hnd, hw⟩
        · rintro ⟨v, hv, hnd, hw⟩
          rcases hv with heq | hv
          · rw [heq] at hnd; rw [hd] at hnd; cases hnd
          · exact ⟨v, hv, hnd, hw⟩
      · simp only [clean_json_dict_elems, if_neg hd, List.mem_cons, ih]
        constructor
        · rintro (heq | ⟨v, hv, hnd, hw⟩)
          · exact ⟨v', Or.inl rfl, by simpa using hd, heq⟩
          · exact ⟨v, Or.inr hv, hnd, hw⟩
        · rintro ⟨v, hv, hnd, hw⟩
          rcases hv with heq | hv
          · left; rw [hw, heq]
          · exact Or.inr ⟨v, hv, hnd, hw⟩
  have harrnull : ∀ es : List Json, clean_json_dict (Json.arr es) = Json.null ↔
      ∀ v ∈ es, v.isDropped = true := by
    intro es
    have hnil : clean_json_dict_elems es = [] ↔ ∀ v ∈ es, v.isDropped = true := by
      induction es with
      | nil => simp [clean_json_dict_elems]
      | cons v' rest ih =>
        by_cases hd : v'.isDropped
        · simp [clean_json_dict_elems, hd, ih]
        · simp [clean_json_dict_elems, hd]
    constructor
    · intro h
      rw [← hnil]
      by_contra hne
      rw [show clean_json_dict (Json.arr es)
          = (match clean_json_dict_elems es with
             | [] => Json.null
             | cleaned => Json.arr cleaned) from rfl] at h
      rcases hl : clean_json_dict_elems es with _ | ⟨x, xs⟩
      · exact hne hl
      · rw [hl] at h
        cases h
    · intro h
      rw [show clean_json_dict (Json.arr es)
          = (match clean_json_dict_elems es with
             | [] => Json.null
             | cleaned => Json.arr cleaned) from rfl]
      rw [hnil.mpr h]
  have hmfields : ∀ (ms : List (String × Json)) (k : String) (w : Json),
      (k, w) ∈ clean_json_dict_maps_fields ms ↔
        ∃ v, (k, v) ∈ ms ∧ v.isDropped = false ∧ w = clean_json_dict_maps v := by
    intro ms
    induction ms with
    | nil => intro k w; simp [clean_json_dict_maps_fields]
    | cons p rest ih =>
      intro k w
      rcases p with ⟨k', v'⟩
      by_cases hd : v'.isDropped
      · simp only [clean_json_dict_maps_fields, if_pos hd, ih, List.mem_cons]
        constructor
        · rintro ⟨v, hv, hnd, hw⟩
          exact ⟨v, Or.inr hv, hnd, hw⟩
        · rintro ⟨v, hv, hnd, hw⟩
          rcases hv with heq | hv
          · rw [Prod.mk.injEq] at heq
            rw [heq.2] at hnd
            rw [hd] at hnd
            cases hnd
          · exact ⟨v, hv, hnd, hw⟩
      · simp only [clean_json_dict_maps_fields, if_neg hd, List.mem_cons, ih]
        constructor
        · rintro (heq | ⟨v, hv, hnd, hw⟩)
          · rw [Prod.mk.injEq] at heq
            exact ⟨v', Or.inl (by rw [heq.1]), by simpa using hd, heq.2⟩
          · exact ⟨v, Or.inr hv, hnd, hw⟩
        · rintro ⟨v, hv, hnd, hw⟩
          rcases hv with heq | hv
          · rw [Prod.mk.injEq] at heq
            left
            rw [Prod.mk.injEq]
            exact ⟨heq.1, by rw [hw, heq.2]⟩
          · exact Or.inr ⟨v, hv, hnd, hw⟩
  have hmelems : ∀ (es : List Json) (w : Json),
      w ∈ clean_json_dict_maps_elems es ↔
        ∃ v, v ∈ es ∧ v ≠ Json.null ∧ w = clean_json_dict_maps v := by
    intro es
    induction es with
    | nil => intro w; simp [clean_json_dict_maps_elems]
    | cons v' rest ih =>
      intro w
      cases v' with
      | null =>
        simp only [clean_json_dict_maps_elems, ih, List.mem_cons]
        constructor
        · rintro ⟨v, hv, hnn, hw⟩
          exact ⟨v, Or.inr hv, hnn, hw⟩
        · rintro ⟨v, heq | hv, hnn, hw⟩
          · exact absurd heq hnn
          · exact ⟨v, hv, hnn, hw⟩
      | bool b =>
        simp only [clean_json_dict_maps_elems, List.mem_cons, ih]
        constructor
        · rintro (hw | ⟨v, hv, hnn, hw⟩)
          · exact ⟨_, Or.inl rfl, by simp, hw⟩
          · exact ⟨v, Or.inr hv, hnn, hw⟩
        · rintro ⟨v, heq | hv, hnn, hw⟩
          · subst heq; left; exact hw
          · right; exact ⟨v, hv, hnn, hw⟩
      | num n =>
        simp only [clean_json_dict_maps_elems, List.mem_cons, ih]
        constructor
        · rintro (hw | ⟨v, hv, hnn, hw⟩)
          · exact ⟨_, Or.inl rfl, by simp, hw⟩
          · exact ⟨v, Or.inr hv, hnn, hw⟩
        · rintro ⟨v, heq | hv, hnn, hw⟩
          · subst heq; left; exact hw
          · right; exact ⟨v, hv, hnn, hw⟩
      | str s =>
        simp only [clean_json_dict_maps_elems, List.mem_cons, ih]
        constructor
        · rintro (hw | ⟨v, hv, hnn, hw⟩)
          · exact ⟨_, Or.inl rfl, by simp, hw⟩
          · exact ⟨v, Or.inr hv, hnn, hw⟩
        · rintro ⟨v, heq | hv, hnn, hw⟩
          · subst heq; left; exact hw
          · right; exact ⟨v, hv, hnn, hw⟩
      | arr es2 =>
        simp only [clean_json_dict_maps_elems, List.mem_cons, ih]
        constructor
        · rintro (hw | ⟨v, hv, hnn, hw⟩)
          · exact ⟨_, Or.inl rfl, by simp, hw⟩
          · exact ⟨v, Or.inr hv, hnn, hw⟩
        · rintro ⟨v, heq | hv, hnn, hw⟩
          · subst heq; left; exact hw
          · right; exact ⟨v, hv, hnn, hw⟩
      | obj ms2 =>
        simp only [clean_json_dict_maps_elems, List.mem_cons, ih]
        constructor
        · rintro (hw | ⟨v, hv, hnn, hw⟩)
          · exact ⟨_, Or.inl rfl, by simp, hw⟩
          · exact ⟨v, Or.inr hv, hnn, hw⟩
        · rintro ⟨v, heq | hv, hnn, hw⟩
          · subst heq; left; exact hw
          · right; exact ⟨v, hv, hnn, hw⟩
  have hmkeep : ∀ es : List Json, (∀ v ∈ es, v = Json.null) →
      clean_json_dict_maps (Json.arr es) = Json.arr [] := by
    have hnil : ∀ es : List Json, (∀ v ∈ es, v = Json.null) →
        clean_json_dict_maps_elems es = [] := by
      intro es
      induction es with
      | nil => intro _; rfl
      | cons v' rest ih =>
        intro h
        have hv' := h v' (List.mem_cons_self v' rest)
        subst hv'
        simp only [clean_json_dict_maps_elems]
        exact ih (fun v hv => h v (List.mem_cons_of_mem _ hv))
    intro es h
    rw [show clean_json_dict_maps (Json.arr es)
        = Json.arr (clean_json_dict_maps_elems es) from rfl, hnil es h]
  exact ⟨hfields, helems, harrnull, hmfields, hmelems, hmkeep⟩

/-- Claim C1, witness: the characterization applied at a concrete map and a
concrete list for each variant — in particular `{"a": [null]}` collapses the
list to `null` in the search variant but keeps `[]` in the maps variant. -/
theorem clean_json_dict_original_value_characterization_witness :
    ("a", Json.num 1) ∈ clean_json_dict_fields [("a", Json.num 1), ("b", Json.null)]
    ∧ clean_json_dict (Json.arr [Json.null]) = Json.null
    ∧ ("a", Json.arr []) ∈ clean_json_dict_maps_fields [("a", Json.arr [Json.null])]
    ∧ clean_json_dict_maps (Json.arr [Json.null]) = Json.arr [] :=
  ⟨(clean_json_dict_original_value_characterization.1
      [("a", Json.num 1), ("b", Json.null)] "a" (Json.num 1)).mpr
      ⟨Json.num 1, by simp, rfl, rfl⟩,
   (clean_json_dict_original_value_characterization.2.2.1 [Json.null]).mpr
      (by simp [Json.isDropped]),
   (clean_json_dict_original_value_characterization.2.2.2.1
      [("a", Json.arr [Json.null])] "a" (Json.arr [])).mpr
      ⟨Json.arr [Json.null], by simp, rfl, rfl⟩,
   clean_json_dict_original_value_characterization.2.2.2.2.2 [Json.null]
      (by simp)⟩

/-- Claim C2, counterexample: the Google Search adapter is not exempt yet
ignores the TTL.  Its lookup (`if cache_key in self.cache`) returns a stored
entry whose age (7200 seconds here, against a stored timestamp of 0) is well
past the fixed 3600-second TTL, without consulting the upstream client. -/
theorem search_returns_stale_cache_entry :
    SerpApiServer.search ⟨"K"⟩ { q := "t" }
        [(SerpApiServer.search_cache_key ⟨"K"⟩ { q := "t" },
          ⟨Payload.text "stale", 0⟩)] 7200 (.exn "unreached")
      = .payload (Payload.text "stale")
          [(SerpApiServer.search_cache_key ⟨"K"⟩ { q := "t" },
            ⟨Payload.text "stale", 0⟩)] false
    ∧ (3600 : Int) ≤ 7200 - 0 := ⟨rfl, by norm_num⟩

/-- Claim C2, amended: the TTL-checked lookup shared by the six enforcing
adapters (Finance, Maps, News, Trends, Images, YouTube search) returns a
stored payload exactly when an entry exists under the key and its age is
strictly below 3600 seconds; at or past that age it behaves as a miss.  The
transcript and Scholar adapters — and also the Google Search adapter — have
no such check. -/
theorem ttl_cache_get_hit_iff_fresh (cache : Cache) (key : String) (now : Int)
    (p : Payload) :
    ttl_cache_get cache key now = some p ↔
      ∃ e, cacheFind cache key = some e ∧ now - e.timestamp < 3600
        ∧ p = e.response := by
  constructor
  · intro h
    unfold ttl_cache_get at h
    rcases hfind : cacheFind cache key with _ | e
    · rw [hfind] at h; cases h
    · rw [hfind] at h
      dsimp only at h
      by_cases ht : now - e.timestamp < 3600
      · rw [if_pos ht] at h
        cases h
        exact ⟨e, rfl, ht, rfl⟩
      · rw [if_neg ht] at h; cases h
  · rintro ⟨e, hfind, ht, hp⟩
    unfold ttl_cache_get
    rw [hfind]
    dsimp only
    rw [if_pos ht, hp]

/-- Claim C2, witness: a 10-second-old entry is a hit, applied through the
characterization. -/
theorem ttl_cache_get_hit_iff_fresh_witness :
    ttl_cache_get [("k", ⟨Payload.text "r", 0⟩)] "k" 10 = some (Payload.text "r") :=
  (ttl_cache_get_hit_iff_fresh [("k", ⟨Payload.text "r", 0⟩)] "k" 10
      (Payload.text "r")).mpr
    ⟨⟨Payload.text "r", 0⟩, rfl, by norm_num, rfl⟩

/-- Claim C3, counterexample: on an upstream failure the Google Search
adapter does not synthesize, format, cache and return an error payload — it
raises `McpError` (re-wrapped by its own generic `except Exception` clause)
and leaves the cache empty, so nothing is served from cache afterwards. -/
theorem search_upstream_failure_uncached_mcp_error :
    SerpApiServer.search ⟨"K"⟩ { q := "t" } [] 0 (.httpError 500 "boom")
      = .fault (.mcpError INTERNAL_ERROR
          "Unexpected error during SerpAPI request: SerpAPI returned an error: 500 - boom")
          [] true := rfl

/-- Claim C3, amended: the Finance adapter (whose shape News, Maps, Trends,
Images and YouTube search repeat) behaves as the claim says: on any upstream
failure it formats the synthesized error in the requested mode, stores it
under the request key, and returns it; a second call within the TTL window
returns the same payload without consulting the upstream.  The Google
Search and Scholar adapters instead raise `McpError` and cache nothing. -/
theorem finance_upstream_failure_cached_and_replayed
    (server : SerpApiGoogleFinanceServer) (args : GoogleFinanceSearchArgs)
    (cache : Cache) (now : Int) (upstream : UpstreamResult) (msg : String)
    (hfail : finance_failure_message upstream = some msg)
    (hmiss : ttl_cache_get cache (server.finance_cache_key args) now = none) :
    ∃ p, finance_format_error args (finance_build_params server.api_key args) msg
        = .ok p
      ∧ server.google_finance_search args cache now upstream
          = .payload p (cachePut cache (server.finance_cache_key args) ⟨p, now⟩) true
      ∧ (∀ (now' : Int) (u' : UpstreamResult), now' - now < 3600 →
          server.google_finance_search args
              (cachePut cache (server.finance_cache_key args) ⟨p, now⟩) now' u'
            = .payload p (cachePut cache (server.finance_cache_key args) ⟨p, now⟩)
                false) := by
  obtain ⟨p, hp⟩ := finance_format_error_ok args
    (finance_build_params server.api_key args) msg
  refine ⟨p, hp, ?_, ?_⟩
  · cases upstream with
    | ok body => simp [finance_failure_message] at hfail
    | httpError status text =>
      simp only [finance_failure_message, Option.some.injEq] at hfail
      subst hfail
      simp [SerpApiGoogleFinanceServer.google_finance_search, hmiss,
        finance_error_step, hp]
    | timeout m =>
      simp only [finance_failure_message, Option.some.injEq] at hfail
      subst hfail
      simp [SerpApiGoogleFinanceServer.google_finance_search, hmiss,
        finance_error_step, hp]
    | clientError m =>
      simp only [finance_failure_message, Option.some.injEq] at hfail
      subst hfail
      simp [SerpApiGoogleFinanceServer.google_finance_search, hmiss,
        finance_error_step, hp]
    | jsonError m =>
      simp only [finance_failure_message, Option.some.injEq] at hfail
      subst hfail
      simp [SerpApiGoogleFinanceServer.google_finance_search, hmiss,
        finance_error_step, hp]
    | exn m =>
      simp only [finance_failure_message, Option.some.injEq] at hfail
      subst hfail
      simp [SerpApiGoogleFinanceServer.google_finance_search, hmiss,
        finance_error_step, hp]
  · intro now' u' hfresh
    have hhit := ttl_cache_get_put_fresh cache (server.finance_cache_key args)
      ⟨p, now⟩ now' hfresh
    simp [SerpApiGoogleFinanceServer.google_finance_search, hhit]

/-- Claim C3, witness: a concrete non-200 failure of the Finance adapter is
formatted, cached and replayed. -/
theorem finance_upstream_failure_cached_and_replayed_witness :
    ∃ p, finance_format_error { q := "AAPL" }
        (finance_build_params "K" { q := "AAPL" })
        "SerpAPI returned status code 500: boom" = .ok p
      ∧ SerpApiGoogleFinanceServer.google_finance_search ⟨"K"⟩ { q := "AAPL" }
          [] 0 (.httpError 500 "boom")
          = .payload p (cachePut []
              (SerpApiGoogleFinanceServer.finance_cache_key ⟨"K"⟩ { q := "AAPL" })
              ⟨p, 0⟩) true
      ∧ (∀ (now' : Int) (u' : UpstreamResult), now' - 0 < 3600 →
          SerpApiGoogleFinanceServer.google_finance_search ⟨"K"⟩ { q := "AAPL" }
              (cachePut []
                (SerpApiGoogleFinanceServer.finance_cache_key ⟨"K"⟩ { q := "AAPL" })
                ⟨p, 0⟩) now' u'
            = .payload p (cachePut []
                (SerpApiGoogleFinanceServer.finance_cache_key ⟨"K"⟩ { q := "AAPL" })
                ⟨p, 0⟩) false) :=
  finance_upstream_failure_cached_and_replayed ⟨"K"⟩ { q := "AAPL" } [] 0
    (.httpError 500 "boom") "SerpAPI returned status code 500: boom" rfl rfl

/-- Claim C4, counterexample: the Scholar adapter appends no mode tag of any
kind — two requests with the same search parameters in raw (or readable) and
clean mode produce the *same* cache key, so the claim fails for that
adapter.  (On a hit the Scholar code instead converts the stored payload to
the requested mode.) -/
theorem scholar_cache_key_identical_across_modes :
    SerpApiGoogleScholarServer.scholar_cache_key ⟨"K"⟩
        { q := some "x", raw_json := true }
      = SerpApiGoogleScholarServer.scholar_cache_key ⟨"K"⟩ { q := some "x" }
    ∧ SerpApiGoogleScholarServer.scholar_cache_key ⟨"K"⟩
        { q := some "x", readable_json := true }
      = SerpApiGoogleScholarServer.scholar_cache_key ⟨"K"⟩ { q := some "x" } :=
  ⟨rfl, rfl⟩

/-- Claim C4, amended: the six `format=`-tagging adapters (Finance shown as
representative; Maps, News, Trends, Images and YouTube search build the same
part list) and the Google Search adapter (which appends `_raw` /
`_readable` / `_clean` instead of `format=...`) give requests with identical
search parameters but different selected output modes different cache keys;
the Scholar adapter does not. -/
theorem mode_tag_distinguishes_cache_keys :
    (∀ (server : SerpApiGoogleFinanceServer) (q : String) (hl window : Option String)
       (r1 d1 r2 d2 : Bool),
        financeFormatTag r1 d1 ≠ financeFormatTag r2 d2 →
        server.finance_cache_key ⟨q, hl, window, r1, d1⟩
          ≠ server.finance_cache_key ⟨q, hl, window, r2, d2⟩)
    ∧ (∀ (server : SerpApiServer) (q : String) (num start : Option Int)
         (location gl hl device safe filter time_period exactTerms : Option String)
         (incl excl : List String) (r1 d1 r2 d2 : Bool),
        (if r1 then "_raw" else if d1 then "_readable" else "_clean")
          ≠ (if r2 then "_raw" else if d2 then "_readable" else "_clean") →
        server.search_cache_key
            ⟨q, num, start, location, gl, hl, device, safe, filter, time_period,
             exactTerms, incl, excl, r1, d1⟩
          ≠ server.search_cache_key
            ⟨q, num, start, location, gl, hl, device, safe, filter, time_period,
             exactTerms, incl, excl, r2, d2⟩) := by
  constructor
  · intro server q hl window r1 d1 r2 d2 htag
    have hkey : ∀ (r d : Bool), server.finance_cache_key ⟨q, hl, window, r, d⟩
        = pyJoin "&" ((["q=" ++ q]
            ++ (match hl with
                | some s => if s = "" then [] else ["hl=" ++ s]
                | none => [])
            ++ (match window with
                | some s => if s = "" then [] else ["window=" ++ s]
                | none => []))
            ++ [financeFormatTag r d]) := by
      intro r d
      unfold SerpApiGoogleFinanceServer.finance_cache_key finance_cache_key_parts
      simp [List.append_assoc]
    intro heq
    rw [hkey r1 d1, hkey r2 d2] at heq
    have hlen := congrArg String.length heq
    rw [pyJoin_amp_snoc_length, pyJoin_amp_snoc_length] at hlen
    exact financeFormatTag_length_ne r1 d1 r2 d2 htag (by omega)
  · intro server q num start location gl hl device safe filter time_period
      exactTerms incl excl r1 d1 r2 d2 htag
    have hkey : ∀ (r d : Bool),
        server.search_cache_key
            ⟨q, num, start, location, gl, hl, device, safe, filter, time_period,
             exactTerms, incl, excl, r, d⟩
          = pyJsonDumpsSorted (search_build_params server.api_key
              ⟨q, num, start, location, gl, hl, device, safe, filter, time_period,
               exactTerms, incl, excl, false, false⟩)
            ++ (if r then "_raw" else if d then "_readable" else "_clean") := by
      intro r d
      rfl
    intro heq
    rw [hkey r1 d1, hkey r2 d2] at heq
    have hlen := congrArg String.length heq
    rw [String.length_append, String.length_append] at hlen
    have htl : (if r1 then "_raw" else if d1 then "_readable" else "_clean").length
        ≠ (if r2 then "_raw" else if d2 then "_readable" else "_clean").length := by
      revert htag
      cases r1 <;> cases d1 <;> cases r2 <;> cases d2 <;> decide
    omega

/-- Claim C4, witness: raw and clean mode give the Finance adapter different
keys for the same query. -/
theorem mode_tag_distinguishes_cache_keys_witness :
    SerpApiGoogleFinanceServer.finance_cache_key ⟨"K"⟩
        ⟨"AAPL", none, none, true, false⟩
      ≠ SerpApiGoogleFinanceServer.finance_cache_key ⟨"K"⟩
        ⟨"AAPL", none, none, false, false⟩ :=
  mode_tag_distinguishes_cache_keys.1 ⟨"K"⟩ "AAPL" none none true false false false
    (by decide)

/-- Claim C5, counterexample: the Google Search adapter's cache key is
`json.dumps(params, sort_keys=True)` where `params` contains
`self.api_key`, so two servers differing only in the secret produce
different keys (and the secret appears verbatim inside the key); the
Scholar adapter has the same defect. -/
theorem search_scholar_cache_key_embeds_api_key :
    SerpApiServer.search_cache_key ⟨"KEY1"⟩ { q := "test" }
      ≠ SerpApiServer.search_cache_key ⟨"KEY2"⟩ { q := "test" }
    ∧ SerpApiGoogleScholarServer.scholar_cache_key ⟨"KEY1"⟩ { q := some "test" }
      ≠ SerpApiGoogleScholarServer.scholar_cache_key ⟨"KEY2"⟩ { q := some "test" } := by
  constructor
  · intro h
    rw [show SerpApiServer.search_cache_key ⟨"KEY1"⟩ { q := "test" }
        = "\x7b\"api_key\": \"KEY1\", \"engine\": \"google\", \"num\": 10, \"q\": \"test\"\x7d_clean"
        from rfl,
      show SerpApiServer.search_cache_key ⟨"KEY2"⟩ { q := "test" }
        = "\x7b\"api_key\": \"KEY2\", \"engine\": \"google\", \"num\": 10, \"q\": \"test\"\x7d_clean"
        from rfl] at h
    simp at h
  · intro h
    rw [show SerpApiGoogleScholarServer.scholar_cache_key ⟨"KEY1"⟩ { q := some "test" }
        = "\x7b\"api_key\": \"KEY1\", \"engine\": \"google_scholar\", \"q\": \"test\"\x7d"
        from rfl,
      show SerpApiGoogleScholarServer.scholar_cache_key ⟨"KEY2"⟩ { q := some "test" }
        = "\x7b\"api_key\": \"KEY2\", \"engine\": \"google_scholar\", \"q\": \"test\"\x7d"
        from rfl] at h
    simp at h

/-- Claim C5, amended: the cache keys of the Finance and Maps adapters (and
the News, Trends, Images and YouTube-search adapters, which build their part
lists the same way) are computed from the request arguments alone — two
servers differing only in `api_key` produce identical keys.  The Google
Search and Scholar adapters embed the secret in the key. -/
theorem finance_maps_cache_key_independent_of_api_key (k1 k2 : String)
    (fargs : GoogleFinanceSearchArgs) (margs : GoogleMapsSearchArgs) :
    SerpApiGoogleFinanceServer.finance_cache_key ⟨k1⟩ fargs
      = SerpApiGoogleFinanceServer.finance_cache_key ⟨k2⟩ fargs
    ∧ SerpApiGoogleMapsServer.maps_cache_key ⟨k1⟩ margs
      = SerpApiGoogleMapsServer.maps_cache_key ⟨k2⟩ margs := ⟨rfl, rfl⟩

/-- Claim C6, counterexample: the Google Search renderer emits the Search
Information section *before* checking `error`, so a response carrying both a
populated `search_information` and a non-null `error` renders a Search
Information section followed by the Error section — not a document
consisting solely of the Error section. -/
theorem search_error_rendering_includes_search_information :
    format_search_results
        { search_metadata := [], search_parameters := [],
          search_information := some [("total_results", Json.num 5)],
          organic_results := [], error := some "X" }
      = "# Search Information\nTotal Results: 5\n\n# Error\nX\n"
    ∧ "# Search Information\nTotal Results: 5\n\n# Error\nX\n" ≠ "# Error\nX\n" :=
  ⟨rfl, by decide⟩

/-- Claim C6, amended, scoped to the two renderers the claim cites: with a
non-null, non-empty `error` the Finance renderer short-circuits to a
document that is exactly the single Error section; the Google Search
renderer stops at the Error section and emits nothing after it, but may
precede it with a Search Information section — its Error section stands
alone exactly when `search_information` is absent or empty.  Nothing is
asserted here about the other adapters' renderers. -/
theorem error_rendering_by_adapter (fin : GoogleFinanceResponseData)
    (resp : SearchResponseData) (e : String) (he : e ≠ "") :
    (fin.error = some e →
        format_google_finance_results fin = "# Error\n" ++ e ++ "\n")
    ∧ (resp.error = some e →
        ∃ pre, format_search_results resp = pre ++ ("# Error\n" ++ e ++ "\n")
          ∧ (optDictTruthy resp.search_information = false → pre = "")) := by
  constructor
  · intro herr
    unfold format_google_finance_results
    rw [herr]
    dsimp only
    rw [if_pos he, pyJoin_error_lines]
  · intro herr
    unfold format_search_results
    rw [herr]
    dsimp only
    rw [if_pos he]
    rw [pyJoin_append_nonempty, pyJoin_error_lines]
    refine ⟨_, rfl, ?_⟩
    intro hfalse
    rw [hfalse]
    rfl

/-- Claim C6, witness: the short-circuit applied to concrete error
responses. -/
theorem error_rendering_by_adapter_witness :
    format_google_finance_results
        { search_metadata := [], search_parameters := [], error := some "X" }
      = "# Error\nX\n"
    ∧ (∃ pre, format_search_results
          { search_metadata := [], search_parameters := [],
            organic_results := [], error := some "X" }
        = pre ++ ("# Error\n" ++ "X" ++ "\n")
        ∧ (optDictTruthy (none : Option (List (String × Json))) = false → pre = "")) :=
  ⟨(error_rendering_by_adapter
      { search_metadata := [], search_parameters := [], error := some "X" }
      { search_metadata := [], search_parameters := [],
        organic_results := [], error := some "X" }
      "X" (by decide)).1 rfl,
   (error_rendering_by_adapter
      { search_metadata := [], search_parameters := [], error := some "X" }
      { search_metadata := [], search_parameters := [],
        organic_results := [], error := some "X" }
      "X" (by decide)).2 rfl⟩

/-- Claim C7, counterexample: an upstream 200 body that fails readable-mode
coercion makes the Scholar adapter raise `McpError` (the pydantic failure is
caught by the generic `except Exception` clause and re-raised as a
protocol-level fault), rather than degrading to a raw/clean rendering or a
formatting-error payload; nothing is cached. -/
theorem scholar_coercion_failure_raises_mcp_error :
    SerpApiGoogleScholarServer.google_scholar_search ⟨"K"⟩
        { q := some "x", readable_json := true } [] 0 (.ok (Json.obj []))
      = .fault (.mcpError INTERNAL_ERROR
          "Unexpected error during SerpAPI request: field required: search_metadata")
          [] true := rfl

/-- Claim C7, amended: on a readable-mode coercion failure the Google Search
adapter degrades by caching and returning the raw body, and the Finance
adapter degrades by formatting, caching and returning a synthesized
`An error occurred: ...` payload; the Scholar adapter instead raises
`McpError`.  Nothing is asserted here about the coercion-failure paths of
the remaining adapters. -/
theorem coercion_failure_degradation_search_finance :
    (∀ (server : SerpApiServer) (args : GoogleSearchArgs) (cache : Cache)
       (now : Int) (body : Json) (em : String),
        args.raw_json = false → args.readable_json = true →
        search_cache_lookup cache (server.search_cache_key args) = none →
        bodyHasErrorKey body = false →
        parseSearchResponseData body = .error em →
        server.search args cache now (.ok body)
          = .payload (.json body)
              (cachePut cache (server.search_cache_key args) ⟨.json body, now⟩) true)
    ∧ (∀ (fserver : SerpApiGoogleFinanceServer) (fargs : GoogleFinanceSearchArgs)
         (fcache : Cache) (fnow : Int) (body : Json) (em : String),
        fargs.raw_json = false → fargs.readable_json = true →
        ttl_cache_get fcache (fserver.finance_cache_key fargs) fnow = none →
        parseGoogleFinanceResponseData body = .error em →
        ∃ p, finance_format_error fargs (finance_build_params fserver.api_key fargs)
              ("An error occurred: " ++ em) = .ok p
          ∧ fserver.google_finance_search fargs fcache fnow (.ok body)
            = .payload p
                (cachePut fcache (fserver.finance_cache_key fargs) ⟨p, fnow⟩) true) := by
  constructor
  · intro server args cache now body em hr hd hmiss hnoerr hparse
    simp [SerpApiServer.search, hmiss, hnoerr, hr, hd, hparse]
  · intro fserver fargs fcache fnow body em hr hd hmiss hparse
    obtain ⟨p, hp⟩ := finance_format_error_ok fargs
      (finance_build_params fserver.api_key fargs) ("An error occurred: " ++ em)
    refine ⟨p, hp, ?_⟩
    simp [SerpApiGoogleFinanceServer.google_finance_search, hmiss, hr, hd, hparse,
      finance_error_step, hp]

/-- Claim C7, witness: the degradations applied to the empty-object body,
which fails both coercions for want of `search_metadata`. -/
theorem coercion_failure_degradation_search_finance_witness :
    SerpApiServer.search ⟨"K"⟩ { q := "t", readable_json := true } [] 0
        (.ok (Json.obj []))
      = .payload (.json (Json.obj []))
          (cachePut [] (SerpApiServer.search_cache_key ⟨"K"⟩
            { q := "t", readable_json := true }) ⟨.json (Json.obj []), 0⟩) true
    ∧ (∃ p, finance_format_error { q := "AAPL", readable_json := true }
          (finance_build_params "K" { q := "AAPL", readable_json := true })
          ("An error occurred: " ++ "field required: search_metadata") = .ok p
        ∧ SerpApiGoogleFinanceServer.google_finance_search ⟨"K"⟩
            { q := "AAPL", readable_json := true } [] 0 (.ok (Json.obj []))
          = .payload p (cachePut []
              (SerpApiGoogleFinanceServer.finance_cache_key ⟨"K"⟩
                { q := "AAPL", readable_json := true }) ⟨p, 0⟩) true) :=
  ⟨coercion_failure_degradation_search_finance.1 ⟨"K"⟩
      { q := "t", readable_json := true } [] 0 (Json.obj [])
      "field required: search_metadata" rfl rfl rfl rfl rfl,
   coercion_failure_degradation_search_finance.2 ⟨"K"⟩
      { q := "AAPL", readable_json := true } [] 0 (Json.obj [])
      "field required: search_metadata" rfl rfl rfl rfl⟩

/-- Claim C8: in the Google Search server, a `google_locations` or
`google_account` tool call whose upstream request succeeds raises an
uncaught `AttributeError` when the handler reads `args.readable_json` —
neither `GoogleLocationsArgs` nor `GoogleAccountArgs` declares that field —
so these calls never return a formatted payload on the success path. -/
theorem locations_account_readable_json_attribute_error
    (server : SerpApiServer) (sargs : GoogleSearchArgs)
    (largs : GoogleLocationsArgs) (cache : Cache) (now : Int)
    (u : UpstreamResult) (locResp accResp : Json)
    (locAny accAny : Except Fault Json) :
    call_tool_search_server "google_locations" server sargs largs cache now u
        (.ok locResp) accAny
      = .fault (.attributeError "readable_json") true
    ∧ call_tool_search_server "google_account" server sargs largs cache now u
        locAny (.ok accResp)
      = .fault (.attributeError "readable_json") true :=
  ⟨rfl, rfl⟩

/-- Claim C9: the transcript adapter's video-ID extraction maps the
`youtu.be`, `watch?v=`, and `shorts/` URL shapes and a bare short ID to the
expected video id, and for any input whose extraction raises,
`get_transcript` returns a terminal `Error: ...` string (with the cache
untouched and the transcript library never consulted) instead of
propagating the exception. -/
theorem extract_video_id_url_shapes :
    extract_video_id "https://youtu.be/abc123XYZ9" = .ok "abc123XYZ9"
    ∧ extract_video_id "https://www.youtube.com/watch?v=abc123XYZ9&t=5"
        = .ok "abc123XYZ9"
    ∧ extract_video_id "https://www.youtube.com/shorts/abc123XYZ9"
        = .ok "abc123XYZ9"
    ∧ extract_video_id "abc123XYZ9" = .ok "abc123XYZ9"
    ∧ (∀ (url : String) (err : ExtractError) (args : YouTubeTranscriptArgs)
         (cache : TranscriptCache) (fetch : TranscriptFetchOutcome),
        args.video_url = url → extract_video_id url = .error err →
        YouTubeTranscriptServer.get_transcript args cache fetch
          = (.text ("Error: " ++ err.pyMessage), cache, false)) := by
  refine ⟨rfl, rfl, rfl, rfl, ?_⟩
  intro url err args cache fetch hurl hext
  unfold YouTubeTranscriptServer.get_transcript
  rw [hurl, hext]

/-- Claim C9, witness: an unrecognized URL shape yields the terminal error
string. -/
theorem extract_video_id_url_shapes_witness :
    extract_video_id "https://example.com/video"
      = .error (.valueError "Could not extract video ID from URL")
    ∧ YouTubeTranscriptServer.get_transcript
        { video_url := "https://example.com/video" } [] (.exn "boom")
      = (.text "Error: Could not extract video ID from URL", [], false) :=
  ⟨rfl,
    extract_video_id_url_shapes.2.2.2.2 "https://example.com/video"
      (.valueError "Could not extract video ID from URL")
      { video_url := "https://example.com/video" } [] (.exn "boom") rfl rfl⟩

/-- Claim C10: invoking the tool under its advertised name
`serpapi_account` always raises `McpError` with code `METHOD_NOT_FOUND` and
never consults any upstream client — `call_tool` dispatches only
`google_search`, `google_locations` and `google_account`. -/
theorem serpapi_account_dispatch_method_not_found (server : SerpApiServer)
    (sargs : GoogleSearchArgs) (largs : GoogleLocationsArgs) (cache : Cache)
    (now : Int) (u : UpstreamResult) (locAny accAny : Except Fault Json) :
    call_tool_search_server "serpapi_account" server sargs largs cache now u
        locAny accAny
      = .fault (.mcpError METHOD_NOT_FOUND "Unknown tool: serpapi_account") false
    ∧ "serpapi_account" ∈ searchServerAdvertisedTools :=
  ⟨rfl, by simp [searchServerAdvertisedTools]⟩
